import Mathlib

/-!
Shallow embedding of the accounting service (satheeshds/accounting).

The relational store (SQLite tables bills, invoices, payouts, transactions,
transaction_documents) is modelled as lists of row records plus
autoincrement counters and a logical clock standing for the
CURRENT_TIMESTAMP defaults.  Monetary values are integers in minor units
(paise), exactly as in the source (Go int / the Money type).  Each HTTP
handler from src/handlers is embedded as a pure function from the store and
the decoded input to the new store and a response; writeError(status, msg)
becomes the error branch of an Except carrying the status code and message.
-/

namespace Accounting

/-- Money is a fixed-point integer amount in minor currency units. -/
abbrev Money := Int

/-- Row of the transactions table (models.Transaction stored fields).
createdAt is the logical insertion clock standing for created_at. -/
structure Transaction where
  id : Int
  accountId : Int
  type : String
  amount : Money
  transactionDate : Option String
  description : Option String
  reference : Option String
  transferAccountId : Option Int
  contactId : Option Int
  createdAt : Nat
deriving Repr, DecidableEq

/-- models.TransactionInput. -/
structure TransactionInput where
  accountId : Int
  type : String
  amount : Money
  transactionDate : Option String := none
  description : Option String := none
  reference : Option String := none
  transferAccountId : Option Int := none
  contactId : Option Int := none
deriving Repr, DecidableEq

/-- models.TransactionInput.Validate. -/
def TransactionInput.Validate (t : TransactionInput) : String :=
  if t.accountId ≤ 0 then "account_id is required"
  else if t.amount ≤ 0 then "amount must be positive"
  else if !(t.type == "income" || t.type == "expense" || t.type == "transfer") then
    "type must be one of: income, expense, transfer"
  else if t.type == "transfer" &&
      (match t.transferAccountId with
       | none => true
       | some v => decide (v ≤ 0)) then
    "transfer_account_id is required for transfers"
  else if t.type == "transfer" &&
      (match t.transferAccountId with
       | none => false
       | some v => v == t.accountId) then
    "transfer_account_id must differ from account_id"
  else ""

/-- Row of the transaction_documents table (models.TransactionDocument). -/
structure TransactionDocument where
  id : Int
  transactionId : Int
  documentType : String
  documentId : Int
  amount : Money
  createdAt : Nat
deriving Repr, DecidableEq

/-- models.TransactionDocumentInput. -/
structure TransactionDocumentInput where
  documentType : String
  documentId : Int
  amount : Money
deriving Repr, DecidableEq

/-- models.TransactionDocumentInput.Validate: the switch admits only
bill and invoice. -/
def TransactionDocumentInput.Validate (td : TransactionDocumentInput) : String :=
  if !(td.documentType == "bill" || td.documentType == "invoice") then
    "document_type must be one of: bill, invoice"
  else if td.documentId ≤ 0 then "document_id is required"
  else if td.amount ≤ 0 then "amount must be positive"
  else ""

/-- Row of the bills table (models.Bill stored fields). -/
structure Bill where
  id : Int
  contactId : Option Int
  billNumber : String
  issueDate : Option String
  dueDate : Option String
  amount : Money
  status : String
  fileURL : Option String
  notes : Option String
  createdAt : Nat
deriving Repr, DecidableEq

/-- models.BillInput. -/
structure BillInput where
  contactId : Option Int := none
  billNumber : String := ""
  issueDate : Option String := none
  dueDate : Option String := none
  amount : Money
  status : String := ""
  fileURL : Option String := none
  notes : Option String := none
deriving Repr, DecidableEq

/-- models.BillInput.Validate.  The Go method mutates the receiver,
defaulting an empty status to draft; here it returns the message together
with the possibly-normalized input. -/
def BillInput.Validate (b : BillInput) : String × BillInput :=
  if b.amount < 0 then ("amount must be non-negative", b)
  else if !(b.status == "" || b.status == "draft" || b.status == "partial" ||
      b.status == "received" || b.status == "paid" || b.status == "overdue" ||
      b.status == "cancelled") then
    ("status must be one of: draft, partial, received, paid, overdue, cancelled", b)
  else if b.status == "" then ("", { b with status := "draft" })
  else ("", b)

/-- Row of the invoices table (models.Invoice stored fields). -/
structure Invoice where
  id : Int
  contactId : Option Int
  invoiceNumber : String
  issueDate : Option String
  dueDate : Option String
  amount : Money
  status : String
  fileURL : Option String
  notes : Option String
  createdAt : Nat
deriving Repr, DecidableEq

/-- models.InvoiceInput. -/
structure InvoiceInput where
  contactId : Option Int := none
  invoiceNumber : String := ""
  issueDate : Option String := none
  dueDate : Option String := none
  amount : Money
  status : String := ""
  fileURL : Option String := none
  notes : Option String := none
deriving Repr, DecidableEq

/-- models.InvoiceInput.Validate, returning the message with the
status-defaulted input, as for bills. -/
def InvoiceInput.Validate (i : InvoiceInput) : String × InvoiceInput :=
  if i.amount < 0 then ("amount must be non-negative", i)
  else if !(i.status == "" || i.status == "draft" || i.status == "partial" ||
      i.status == "sent" || i.status == "paid" || i.status == "received" ||
      i.status == "overdue" || i.status == "cancelled") then
    ("status must be one of: draft, partial, sent, paid, received, overdue, cancelled", i)
  else if i.status == "" then ("", { i with status := "draft" })
  else ("", i)

/-- Row of the payouts table (models.Payout stored fields; the schema has
no status column for payouts). -/
structure Payout where
  id : Int
  outletName : String
  platform : String
  periodStart : Option String
  periodEnd : Option String
  settlementDate : Option String
  totalOrders : Int
  grossSalesAmt : Money
  restaurantDiscountAmt : Money
  platformCommissionAmt : Money
  taxesTcsTdsAmt : Money
  marketingAdsAmt : Money
  finalPayoutAmt : Money
  utrNumber : String
  createdAt : Nat
deriving Repr, DecidableEq

/-- models.PayoutInput. -/
structure PayoutInput where
  outletName : String
  platform : String
  periodStart : Option String := none
  periodEnd : Option String := none
  settlementDate : Option String := none
  totalOrders : Int := 0
  grossSalesAmt : Money := 0
  restaurantDiscountAmt : Money := 0
  platformCommissionAmt : Money := 0
  taxesTcsTdsAmt : Money := 0
  marketingAdsAmt : Money := 0
  finalPayoutAmt : Money := 0
  utrNumber : String := ""
deriving Repr, DecidableEq

/-- strings.ToLower, modelled characterwise over the underlying character
list (the platform values involved are plain ASCII). -/
def lowerString (s : String) : String := ⟨s.data.map Char.toLower⟩

/-- models.PayoutInput.Validate. -/
def PayoutInput.Validate (p : PayoutInput) : String :=
  if p.outletName == "" then "outlet_name is required"
  else if !(lowerString p.platform == "swiggy" || lowerString p.platform == "zomato") then
    "platform must be swiggy or zomato"
  else ""

/-- Row of the contacts table (models.Contact stored fields), read by the
list handlers through the LEFT JOIN on contact_id. -/
structure Contact where
  id : Int
  name : String
  type : String
  email : Option String
  phone : Option String
deriving Repr, DecidableEq

/-- The relational store: one list per table plus autoincrement counters
and a logical clock for created_at defaults. -/
structure Store where
  transactions : List Transaction
  bills : List Bill
  invoices : List Invoice
  payouts : List Payout
  contacts : List Contact
  transaction_documents : List TransactionDocument
  nextTxnId : Int
  nextBillId : Int
  nextInvoiceId : Int
  nextPayoutId : Int
  nextLinkId : Int
  clock : Nat
deriving Repr, DecidableEq

/-- The store after migration and before any request. -/
def emptyStore : Store :=
  { transactions := []
    bills := []
    invoices := []
    payouts := []
    contacts := []
    transaction_documents := []
    nextTxnId := 1
    nextBillId := 1
    nextInvoiceId := 1
    nextPayoutId := 1
    nextLinkId := 1
    clock := 0 }

/-- SELECT COALESCE(SUM(amount), 0) FROM transaction_documents WHERE
transaction_id = txnId. -/
def sumLinksForTxn (links : List TransactionDocument) (txnId : Int) : Money :=
  ((links.filter (fun td => td.transactionId == txnId)).map (fun td => td.amount)).sum

/-- SELECT COALESCE(SUM(amount), 0) FROM transaction_documents WHERE
document_type = documentType AND document_id = documentId. -/
def sumLinksForDoc (links : List TransactionDocument) (documentType : String)
    (documentId : Int) : Money :=
  ((links.filter fun td =>
    td.documentType == documentType && td.documentId == documentId).map
      fun td => td.amount).sum

/-- SELECT ... FROM transactions WHERE id = ?. -/
def Store.findTxn (s : Store) (id : Int) : Option Transaction :=
  s.transactions.find? (fun t => t.id == id)

/-- SELECT ... FROM bills WHERE id = ?. -/
def Store.findBill (s : Store) (id : Int) : Option Bill :=
  s.bills.find? (fun b => b.id == id)

/-- SELECT ... FROM invoices WHERE id = ?. -/
def Store.findInvoice (s : Store) (id : Int) : Option Invoice :=
  s.invoices.find? (fun i => i.id == id)

/-- SELECT ... FROM payouts WHERE id = ?. -/
def Store.findPayout (s : Store) (id : Int) : Option Payout :=
  s.payouts.find? (fun p => p.id == id)

/-- writeError(status, message) as a structured response. -/
structure ApiErr where
  status : Nat
  msg : String
deriving Repr, DecidableEq

/-- models.Transaction as serialized: stored fields plus the computed
allocated and unallocated fields. -/
structure TransactionView extends Transaction where
  allocated : Money
  unallocated : Money
deriving Repr, DecidableEq

/-- handlers.scanTransaction: the computed fields come from the correlated
subquery over transaction_documents, and Unallocated = Amount - Allocated. -/
def scanTransaction (s : Store) (t : Transaction) : TransactionView :=
  let allocated := sumLinksForTxn s.transaction_documents t.id
  { toTransaction := t, allocated := allocated, unallocated := t.amount - allocated }

/-- models.Bill as serialized with computed fields. -/
structure BillView extends Bill where
  allocated : Money
  unallocated : Money
deriving Repr, DecidableEq

/-- handlers.scanBill. -/
def scanBill (s : Store) (b : Bill) : BillView :=
  let allocated := sumLinksForDoc s.transaction_documents "bill" b.id
  { toBill := b, allocated := allocated, unallocated := b.amount - allocated }

/-- models.Invoice as serialized with computed fields. -/
structure InvoiceView extends Invoice where
  allocated : Money
  unallocated : Money
deriving Repr, DecidableEq

/-- handlers.scanInvoice. -/
def scanInvoice (s : Store) (i : Invoice) : InvoiceView :=
  let allocated := sumLinksForDoc s.transaction_documents "invoice" i.id
  { toInvoice := i, allocated := allocated, unallocated := i.amount - allocated }

/-- models.Payout as serialized with computed fields. -/
structure PayoutView extends Payout where
  allocated : Money
  unallocated : Money
deriving Repr, DecidableEq

/-- handlers.scanPayout: the allocatable amount of a payout is
final_payout_amt. -/
def scanPayout (s : Store) (p : Payout) : PayoutView :=
  let allocated := sumLinksForDoc s.transaction_documents "payout" p.id
  { toPayout := p, allocated := allocated, unallocated := p.finalPayoutAmt - allocated }

/-- handlers.GetTransaction. -/
def GetTransaction (s : Store) (id : Int) : Except ApiErr TransactionView :=
  match s.findTxn id with
  | none => .error ⟨404, "transaction not found"⟩
  | some t => .ok (scanTransaction s t)

/-- handlers.GetBill. -/
def GetBill (s : Store) (id : Int) : Except ApiErr BillView :=
  match s.findBill id with
  | none => .error ⟨404, "bill not found"⟩
  | some b => .ok (scanBill s b)

/-- handlers.GetInvoice. -/
def GetInvoice (s : Store) (id : Int) : Except ApiErr InvoiceView :=
  match s.findInvoice id with
  | none => .error ⟨404, "invoice not found"⟩
  | some i => .ok (scanInvoice s i)

/-- handlers.GetPayout. -/
def GetPayout (s : Store) (id : Int) : Except ApiErr PayoutView :=
  match s.findPayout id with
  | none => .error ⟨404, "payout not found"⟩
  | some p => .ok (scanPayout s p)

/-- Optional query parameters of ListTransactions. -/
structure TxnQuery where
  type : Option String := none
  accountId : Option Int := none
  fromDate : Option String := none
  toDate : Option String := none
deriving Repr, DecidableEq

/-- The WHERE clause assembled by ListTransactions (AND of the present
filters; a NULL transaction_date never satisfies a date comparison). -/
def txnMatches (q : TxnQuery) (t : Transaction) : Bool :=
  (match q.type with | none => true | some v => t.type == v) &&
  (match q.accountId with | none => true | some v => t.accountId == v) &&
  (match q.fromDate with
   | none => true
   | some v => match t.transactionDate with
     | none => false
     | some d => decide (v ≤ d)) &&
  (match q.toDate with
   | none => true
   | some v => match t.transactionDate with
     | none => false
     | some d => decide (d ≤ v))

instance : DecidableRel (fun a b : Transaction => b.createdAt ≤ a.createdAt) :=
  fun a b => Nat.decLe b.createdAt a.createdAt

instance : IsTotal Transaction (fun a b => b.createdAt ≤ a.createdAt) :=
  ⟨fun a b => Nat.le_total b.createdAt a.createdAt⟩

instance : IsTrans Transaction (fun a b => b.createdAt ≤ a.createdAt) :=
  ⟨fun _ _ _ h h2 => Nat.le_trans h2 h⟩

/-- handlers.ListTransactions: filter, ORDER BY created_at DESC, scan each
row with its computed fields. -/
def ListTransactions (s : Store) (q : TxnQuery) : List TransactionView :=
  ((s.transactions.filter (txnMatches q)).insertionSort
      (fun a b => b.createdAt ≤ a.createdAt)).map (scanTransaction s)

instance : DecidableRel (fun a b : TransactionDocument => a.createdAt ≤ b.createdAt) :=
  fun a b => Nat.decLe a.createdAt b.createdAt

instance : IsTotal TransactionDocument (fun a b => a.createdAt ≤ b.createdAt) :=
  ⟨fun a b => Nat.le_total a.createdAt b.createdAt⟩

instance : IsTrans TransactionDocument (fun a b => a.createdAt ≤ b.createdAt) :=
  ⟨fun _ _ _ h h2 => Nat.le_trans h h2⟩

/-- handlers.ListTransactionLinks: rows for the transaction ORDER BY
created_at; the Go slice stays nil when no row is scanned and is then
replaced by an empty slice before serialization, which the Option layer
mirrors. -/
def ListTransactionLinks (s : Store) (txnId : Int) :
    Except ApiErr (List TransactionDocument) :=
  let rows := (s.transaction_documents.filter
    fun td => td.transactionId == txnId).insertionSort
      fun a b => a.createdAt ≤ b.createdAt
  let docs : Option (List TransactionDocument) :=
    rows.foldl (fun acc td => some (acc.getD [] ++ [td])) none
  .ok (docs.getD [])

/-- handlers.CreateTransaction.  The response carries the id of the row
re-fetched and returned (for transfers, the expense-side row). -/
def CreateTransaction (s : Store) (input : TransactionInput) :
    Store × Except ApiErr Int :=
  if input.Validate != "" then (s, .error ⟨400, input.Validate⟩)
  else if input.type == "transfer" then
    let ref : Option String :=
      match input.reference with
      | none => some "TRF-0"
      | some r => some r
    let id1 := s.nextTxnId
    let expenseRow : Transaction :=
      { id := id1
        accountId := input.accountId
        type := "expense"
        amount := input.amount
        transactionDate := input.transactionDate
        description := input.description
        reference := ref
        transferAccountId := input.transferAccountId
        contactId := input.contactId
        createdAt := s.clock }
    let incomeRow : Transaction :=
      { id := id1 + 1
        accountId := input.transferAccountId.getD 0
        type := "income"
        amount := input.amount
        transactionDate := input.transactionDate
        description := input.description
        reference := ref
        transferAccountId := some input.accountId
        contactId := input.contactId
        createdAt := s.clock + 1 }
    let txns := s.transactions ++ [expenseRow, incomeRow]
    let txns :=
      match input.reference with
      | none =>
        let autoRef := "TRF-" ++ toString id1
        txns.map fun t =>
          if t.reference == some "TRF-0" then { t with reference := some autoRef } else t
      | some _ => txns
    ({ s with
        transactions := txns
        nextTxnId := s.nextTxnId + 2
        clock := s.clock + 2 }, .ok id1)
  else
    let id := s.nextTxnId
    let row : Transaction :=
      { id := id
        accountId := input.accountId
        type := input.type
        amount := input.amount
        transactionDate := input.transactionDate
        description := input.description
        reference := input.reference
        transferAccountId := input.transferAccountId
        contactId := input.contactId
        createdAt := s.clock }
    ({ s with
        transactions := s.transactions ++ [row]
        nextTxnId := s.nextTxnId + 1
        clock := s.clock + 1 }, .ok id)

/-- The auto-generated transfer reference TRF-<id> for the expense-row id
issued by the transfer branch of CreateTransaction. -/
def transferAutoRef (s : Store) : String := "TRF-" ++ toString s.nextTxnId

/-- The expense-side row inserted by the transfer branch of
CreateTransaction when no reference was supplied (before the reference
patch). -/
def transferExpenseRow (s : Store) (input : TransactionInput) : Transaction :=
  { id := s.nextTxnId
    accountId := input.accountId
    type := "expense"
    amount := input.amount
    transactionDate := input.transactionDate
    description := input.description
    reference := some "TRF-0"
    transferAccountId := input.transferAccountId
    contactId := input.contactId
    createdAt := s.clock }

/-- The income-side row inserted by the transfer branch of
CreateTransaction when no reference was supplied (before the reference
patch). -/
def transferIncomeRow (s : Store) (input : TransactionInput) : Transaction :=
  { id := s.nextTxnId + 1
    accountId := input.transferAccountId.getD 0
    type := "income"
    amount := input.amount
    transactionDate := input.transactionDate
    description := input.description
    reference := some "TRF-0"
    transferAccountId := some input.accountId
    contactId := input.contactId
    createdAt := s.clock + 1 }

/-- The reference patch UPDATE of the transfer branch, applied to every
row whose reference equals the placeholder. -/
def transferPatch (s : Store) (t : Transaction) : Transaction :=
  if t.reference == some "TRF-0" then
    { t with reference := some (transferAutoRef s) }
  else t

/-- The store produced by the transfer branch of CreateTransaction for a
valid transfer input without explicit reference. -/
def transferStore (s : Store) (input : TransactionInput) : Store :=
  { s with
      transactions := (s.transactions ++
        [transferExpenseRow s input, transferIncomeRow s input]).map (transferPatch s)
      nextTxnId := s.nextTxnId + 2
      clock := s.clock + 2 }

/-- handlers.UpdateTransaction: full-record UPDATE of every field except id
and created_at; rows-affected = 0 means NotFound. -/
def UpdateTransaction (s : Store) (id : Int) (input : TransactionInput) :
    Store × Except ApiErr Unit :=
  if input.Validate != "" then (s, .error ⟨400, input.Validate⟩)
  else
    let n := (s.transactions.filter (fun t => t.id == id)).length
    let txns := s.transactions.map fun t =>
      if t.id == id then
        { t with
          accountId := input.accountId
          type := input.type
          amount := input.amount
          transactionDate := input.transactionDate
          description := input.description
          reference := input.reference
          transferAccountId := input.transferAccountId
          contactId := input.contactId }
      else t
    if n == 0 then (s, .error ⟨404, "transaction not found"⟩)
    else ({ s with transactions := txns }, .ok ())

/-- handlers.DeleteTransaction.  The schema declares transaction_documents
with ON DELETE CASCADE on transaction_id and the connection enables
foreign_keys, so the links of the deleted transaction go with it. -/
def DeleteTransaction (s : Store) (id : Int) : Store × Except ApiErr Unit :=
  let n := (s.transactions.filter (fun t => t.id == id)).length
  if n == 0 then (s, .error ⟨404, "transaction not found"⟩)
  else
    ({ s with
        transactions := s.transactions.filter fun t => !(t.id == id)
        transaction_documents :=
          s.transaction_documents.filter fun td => !(td.transactionId == id) },
     .ok ())

/-- The status computation at the end of handlers.updateDocumentStatus. -/
def statusCalcFromTotals (total allocated : Money) (fullStatus : String) : String :=
  if total ≤ 0 then "draft"
  else if allocated ≤ 0 then "draft"
  else if allocated < total then "partial"
  else fullStatus

/-- handlers.updateDocumentStatus: recompute and persist the status of a
bill or invoice from its amount and allocation total; payouts and unknown
types return without reading or writing anything, as does a missing row. -/
def updateDocumentStatus (s : Store) (docType : String) (docID : Int) : Store :=
  if docType == "bill" then
    match s.findBill docID with
    | none => s
    | some b =>
      let newStatus := statusCalcFromTotals b.amount
        (sumLinksForDoc s.transaction_documents docType docID) "paid"
      { s with bills := s.bills.map fun x =>
          if x.id == docID then { x with status := newStatus } else x }
  else if docType == "invoice" then
    match s.findInvoice docID with
    | none => s
    | some i =>
      let newStatus := statusCalcFromTotals i.amount
        (sumLinksForDoc s.transaction_documents docType docID) "received"
      { s with invoices := s.invoices.map fun x =>
          if x.id == docID then { x with status := newStatus } else x }
  else s

/-- Result of resolving the document table and amount field in
CreateTransactionLink: the switch distinguishes an unknown type from a
missing row. -/
inductive DocAmount where
  | invalidType : DocAmount
  | notFound : DocAmount
  | found : Money → DocAmount
deriving Repr, DecidableEq

/-- The document-resolution switch of CreateTransactionLink: bills and
invoices expose amount, payouts expose final_payout_amt. -/
def docAmountLookup (s : Store) (documentType : String) (documentId : Int) :
    DocAmount :=
  if documentType == "bill" then
    match s.findBill documentId with
    | none => .notFound
    | some b => .found b.amount
  else if documentType == "invoice" then
    match s.findInvoice documentId with
    | none => .notFound
    | some i => .found i.amount
  else if documentType == "payout" then
    match s.findPayout documentId with
    | none => .notFound
    | some p => .found p.finalPayoutAmt
  else .invalidType

/-- handlers.CreateTransactionLink: validate, check the transaction side
capacity, resolve the document and check its capacity, insert the link and
reconcile the document status. -/
def CreateTransactionLink (s : Store) (txnID : Int)
    (input : TransactionDocumentInput) :
    Store × Except ApiErr TransactionDocument :=
  if input.Validate != "" then (s, .error ⟨400, input.Validate⟩)
  else
    match s.findTxn txnID with
    | none => (s, .error ⟨404, "transaction not found"⟩)
    | some t =>
      let txnAllocated := sumLinksForTxn s.transaction_documents txnID
      let txnUnallocated := t.amount - txnAllocated
      if txnUnallocated < input.amount then
        (s, .error ⟨400, "transaction only has " ++ toString txnUnallocated ++
          " paise unallocated (requested " ++ toString input.amount ++ ")"⟩)
      else
        match docAmountLookup s input.documentType input.documentId with
        | .invalidType => (s, .error ⟨400, "invalid document type"⟩)
        | .notFound => (s, .error ⟨404, input.documentType ++ " not found"⟩)
        | .found docAmount =>
          let docAllocated :=
            sumLinksForDoc s.transaction_documents input.documentType input.documentId
          let docUnallocated := docAmount - docAllocated
          if docUnallocated < input.amount then
            (s, .error ⟨400, input.documentType ++ " only has " ++
              toString docUnallocated ++ " paise unallocated (requested " ++
              toString input.amount ++ ")"⟩)
          else
            let td : TransactionDocument :=
              { id := s.nextLinkId
                transactionId := txnID
                documentType := input.documentType
                documentId := input.documentId
                amount := input.amount
                createdAt := s.clock }
            let s1 : Store :=
              { s with
                transaction_documents := s.transaction_documents ++ [td]
                nextLinkId := s.nextLinkId + 1
                clock := s.clock + 1 }
            (updateDocumentStatus s1 input.documentType input.documentId, .ok td)

/-- handlers.DeleteTransactionLink: look up the document target of the
link (left empty when the link id is unknown), DELETE the row matched by
both link id and transaction id, report NotFound when no row was affected,
and otherwise reconcile the document status. -/
def DeleteTransactionLink (s : Store) (txnID linkID : Int) :
    Store × Except ApiErr Unit :=
  let docInfo : String × Int :=
    match s.transaction_documents.find? (fun td => td.id == linkID) with
    | none => ("", 0)
    | some td => (td.documentType, td.documentId)
  let n := (s.transaction_documents.filter
    fun td => td.id == linkID && td.transactionId == txnID).length
  if n == 0 then (s, .error ⟨404, "link not found"⟩)
  else
    let s1 : Store :=
      { s with transaction_documents := s.transaction_documents.filter fun td =>
          !(td.id == linkID && td.transactionId == txnID) }
    let s2 := if docInfo.1 != "" then updateDocumentStatus s1 docInfo.1 docInfo.2 else s1
    (s2, .ok ())

/-- Whether the first character list is a prefix of the second. -/
def charsPref : List Char → List Char → Bool
  | [], _ => true
  | _ :: _, [] => false
  | a :: as, b :: bs => a == b && charsPref as bs

/-- Whether the first character list occurs contiguously inside the
second. -/
def charsSub (n : List Char) : List Char → Bool
  | [] => charsPref n []
  | c :: rest => charsPref n (c :: rest) || charsSub n rest

/-- col LIKE '%' || pat || '%' as SQLite evaluates it: case-insensitive over
ASCII (both sides folded to lower case); a pat containing further LIKE
wildcards is not modelled, as the handlers pass user search terms
verbatim. -/
def sqlLike (col : String) (pat : String) : Bool :=
  charsSub (lowerString pat).data (lowerString col).data

/-- c.name from the LEFT JOIN contacts c ON contact_id = c.id: NULL when
the row has no contact or the contact is missing. -/
def contactNameFor (s : Store) (cid : Option Int) : Option String :=
  match cid with
  | none => none
  | some c => (s.contacts.find? (fun ct => ct.id == c)).map (fun ct => ct.name)

/-- Optional query parameters of ListBills. -/
structure BillQuery where
  status : Option String := none
  contactId : Option Int := none
  fromDate : Option String := none
  toDate : Option String := none
  search : Option String := none
deriving Repr, DecidableEq

/-- The WHERE clause assembled by ListBills (AND of the present filters;
a NULL column never satisfies a comparison, and the search term is matched
with LIKE against bill_number, notes and the joined contact name). -/
def billMatches (s : Store) (q : BillQuery) (b : Bill) : Bool :=
  (match q.status with | none => true | some v => b.status == v) &&
  (match q.contactId with
   | none => true
   | some v => match b.contactId with | none => false | some c => c == v) &&
  (match q.fromDate with
   | none => true
   | some v => match b.issueDate with
     | none => false
     | some d => decide (v ≤ d)) &&
  (match q.toDate with
   | none => true
   | some v => match b.issueDate with
     | none => false
     | some d => decide (d ≤ v)) &&
  (match q.search with
   | none => true
   | some v =>
     sqlLike b.billNumber v ||
     (match b.notes with | none => false | some nt => sqlLike nt v) ||
     (match contactNameFor s b.contactId with
      | none => false
      | some nm => sqlLike nm v))

instance : DecidableRel (fun a b : Bill => b.createdAt ≤ a.createdAt) :=
  fun a b => Nat.decLe b.createdAt a.createdAt

/-- handlers.ListBills: filter, ORDER BY b.created_at DESC, scan each row
with its computed fields. -/
def ListBills (s : Store) (q : BillQuery) : List BillView :=
  ((s.bills.filter (billMatches s q)).insertionSort
      (fun a b => b.createdAt ≤ a.createdAt)).map (scanBill s)

/-- Optional query parameters of ListInvoices. -/
structure InvoiceQuery where
  status : Option String := none
  contactId : Option Int := none
  fromDate : Option String := none
  toDate : Option String := none
  search : Option String := none
deriving Repr, DecidableEq

/-- The WHERE clause assembled by ListInvoices, of the same shape as the
bill one over invoice_number. -/
def invoiceMatches (s : Store) (q : InvoiceQuery) (i : Invoice) : Bool :=
  (match q.status with | none => true | some v => i.status == v) &&
  (match q.contactId with
   | none => true
   | some v => match i.contactId with | none => false | some c => c == v) &&
  (match q.fromDate with
   | none => true
   | some v => match i.issueDate with
     | none => false
     | some d => decide (v ≤ d)) &&
  (match q.toDate with
   | none => true
   | some v => match i.issueDate with
     | none => false
     | some d => decide (d ≤ v)) &&
  (match q.search with
   | none => true
   | some v =>
     sqlLike i.invoiceNumber v ||
     (match i.notes with | none => false | some nt => sqlLike nt v) ||
     (match contactNameFor s i.contactId with
      | none => false
      | some nm => sqlLike nm v))

instance : DecidableRel (fun a b : Invoice => b.createdAt ≤ a.createdAt) :=
  fun a b => Nat.decLe b.createdAt a.createdAt

/-- handlers.ListInvoices: filter, ORDER BY i.created_at DESC, scan each
row with its computed fields. -/
def ListInvoices (s : Store) (q : InvoiceQuery) : List InvoiceView :=
  ((s.invoices.filter (invoiceMatches s q)).insertionSort
      (fun a b => b.createdAt ≤ a.createdAt)).map (scanInvoice s)

/-- Optional query parameters of ListPayouts. -/
structure PayoutQuery where
  platform : Option String := none
  outletName : Option String := none
  fromDate : Option String := none
  toDate : Option String := none
deriving Repr, DecidableEq

/-- The WHERE clause assembled by ListPayouts: exact platform match, LIKE
on outlet_name, date range on settlement_date (a NULL settlement_date never
satisfies a comparison). -/
def payoutMatches (q : PayoutQuery) (p : Payout) : Bool :=
  (match q.platform with | none => true | some v => p.platform == v) &&
  (match q.outletName with | none => true | some v => sqlLike p.outletName v) &&
  (match q.fromDate with
   | none => true
   | some v => match p.settlementDate with
     | none => false
     | some d => decide (v ≤ d)) &&
  (match q.toDate with
   | none => true
   | some v => match p.settlementDate with
     | none => false
     | some d => decide (d ≤ v))

/-- ORDER BY settlement_date DESC, created_at DESC: later settlement dates
first with NULL settlement dates last (DESC places NULLs last), ties broken
by created_at descending. -/
def payoutListBefore (a b : Payout) : Bool :=
  match a.settlementDate, b.settlementDate with
  | some x, some y =>
    if x == y then decide (b.createdAt ≤ a.createdAt) else decide (y ≤ x)
  | some _, none => true
  | none, some _ => false
  | none, none => decide (b.createdAt ≤ a.createdAt)

instance : DecidableRel (fun a b : Payout => payoutListBefore a b = true) :=
  fun a b => instDecidableEqBool (payoutListBefore a b) true

/-- handlers.ListPayouts: filter, ORDER BY settlement_date DESC,
created_at DESC, scan each row with its computed fields. -/
def ListPayouts (s : Store) (q : PayoutQuery) : List PayoutView :=
  ((s.payouts.filter (payoutMatches q)).insertionSort
      (fun a b => payoutListBefore a b = true)).map (scanPayout s)

/-- handlers.CreateBill. -/
def CreateBill (s : Store) (input : BillInput) : Store × Except ApiErr Int :=
  let v := input.Validate
  if v.1 != "" then (s, .error ⟨400, v.1⟩)
  else
    let input := v.2
    let id := s.nextBillId
    let row : Bill :=
      { id := id
        contactId := input.contactId
        billNumber := input.billNumber
        issueDate := input.issueDate
        dueDate := input.dueDate
        amount := input.amount
        status := input.status
        fileURL := input.fileURL
        notes := input.notes
        createdAt := s.clock }
    ({ s with
        bills := s.bills ++ [row]
        nextBillId := s.nextBillId + 1
        clock := s.clock + 1 }, .ok id)

/-- handlers.UpdateBill. -/
def UpdateBill (s : Store) (id : Int) (input : BillInput) :
    Store × Except ApiErr Unit :=
  let v := input.Validate
  if v.1 != "" then (s, .error ⟨400, v.1⟩)
  else
    let input := v.2
    let n := (s.bills.filter (fun b => b.id == id)).length
    let bills := s.bills.map fun b =>
      if b.id == id then
        { b with
          contactId := input.contactId
          billNumber := input.billNumber
          issueDate := input.issueDate
          dueDate := input.dueDate
          amount := input.amount
          status := input.status
          fileURL := input.fileURL
          notes := input.notes }
      else b
    if n == 0 then (s, .error ⟨404, "bill not found"⟩)
    else ({ s with bills := bills }, .ok ())

/-- handlers.DeleteBill. -/
def DeleteBill (s : Store) (id : Int) : Store × Except ApiErr Unit :=
  let n := (s.bills.filter (fun b => b.id == id)).length
  if n == 0 then (s, .error ⟨404, "bill not found"⟩)
  else ({ s with bills := s.bills.filter fun b => !(b.id == id) }, .ok ())

/-- handlers.CreateInvoice. -/
def CreateInvoice (s : Store) (input : InvoiceInput) : Store × Except ApiErr Int :=
  let v := input.Validate
  if v.1 != "" then (s, .error ⟨400, v.1⟩)
  else
    let input := v.2
    let id := s.nextInvoiceId
    let row : Invoice :=
      { id := id
        contactId := input.contactId
        invoiceNumber := input.invoiceNumber
        issueDate := input.issueDate
        dueDate := input.dueDate
        amount := input.amount
        status := input.status
        fileURL := input.fileURL
        notes := input.notes
        createdAt := s.clock }
    ({ s with
        invoices := s.invoices ++ [row]
        nextInvoiceId := s.nextInvoiceId + 1
        clock := s.clock + 1 }, .ok id)

/-- handlers.UpdateInvoice. -/
def UpdateInvoice (s : Store) (id : Int) (input : InvoiceInput) :
    Store × Except ApiErr Unit :=
  let v := input.Validate
  if v.1 != "" then (s, .error ⟨400, v.1⟩)
  else
    let input := v.2
    let n := (s.invoices.filter (fun i => i.id == id)).length
    let invoices := s.invoices.map fun i =>
      if i.id == id then
        { i with
          contactId := input.contactId
          invoiceNumber := input.invoiceNumber
          issueDate := input.issueDate
          dueDate := input.dueDate
          amount := input.amount
          status := input.status
          fileURL := input.fileURL
          notes := input.notes }
      else i
    if n == 0 then (s, .error ⟨404, "invoice not found"⟩)
    else ({ s with invoices := invoices }, .ok ())

/-- handlers.DeleteInvoice. -/
def DeleteInvoice (s : Store) (id : Int) : Store × Except ApiErr Unit :=
  let n := (s.invoices.filter (fun i => i.id == id)).length
  if n == 0 then (s, .error ⟨404, "invoice not found"⟩)
  else ({ s with invoices := s.invoices.filter fun i => !(i.id == id) }, .ok ())

/-- The schema constraint CHECK(platform IN ('Swiggy', 'Zomato')) on the
payouts table, evaluated by the engine on every INSERT and on every row an
UPDATE rewrites. -/
def platformCheckOk (platform : String) : Bool :=
  platform == "Swiggy" || platform == "Zomato"

/-- The error surfaced by the store when the payouts platform CHECK fails;
the handlers forward err.Error() with status 500, so only the status and the
fact of the failure matter here, not the driver wording. -/
def platformCheckErr : ApiErr := ⟨500, "CHECK constraint failed: platform"⟩

/-- handlers.CreatePayout: the INSERT takes the submitted platform value
exactly as decoded; if that exact value is not Swiggy or Zomato the INSERT
violates the payouts CHECK and the handler returns the store error with
nothing written. -/
def CreatePayout (s : Store) (input : PayoutInput) : Store × Except ApiErr Int :=
  if input.Validate != "" then (s, .error ⟨400, input.Validate⟩)
  else if !(platformCheckOk input.platform) then (s, .error platformCheckErr)
  else
    let id := s.nextPayoutId
    let row : Payout :=
      { id := id
        outletName := input.outletName
        platform := input.platform
        periodStart := input.periodStart
        periodEnd := input.periodEnd
        settlementDate := input.settlementDate
        totalOrders := input.totalOrders
        grossSalesAmt := input.grossSalesAmt
        restaurantDiscountAmt := input.restaurantDiscountAmt
        platformCommissionAmt := input.platformCommissionAmt
        taxesTcsTdsAmt := input.taxesTcsTdsAmt
        marketingAdsAmt := input.marketingAdsAmt
        finalPayoutAmt := input.finalPayoutAmt
        utrNumber := input.utrNumber
        createdAt := s.clock }
    ({ s with
        payouts := s.payouts ++ [row]
        nextPayoutId := s.nextPayoutId + 1
        clock := s.clock + 1 }, .ok id)

/-- handlers.UpdatePayout: the handler lowercases the platform before the
UPDATE; when the UPDATE matches a row, the rewritten row must satisfy the
payouts CHECK(platform IN ('Swiggy', 'Zomato')), otherwise Exec returns the
constraint error (checked before RowsAffected) and nothing is written; when
no row matches, Exec succeeds with zero rows affected and the handler
reports NotFound. -/
def UpdatePayout (s : Store) (id : Int) (input : PayoutInput) :
    Store × Except ApiErr Unit :=
  if input.Validate != "" then (s, .error ⟨400, input.Validate⟩)
  else
    let input := { input with platform := lowerString input.platform }
    let n := (s.payouts.filter (fun p => p.id == id)).length
    if n != 0 && !(platformCheckOk input.platform) then (s, .error platformCheckErr)
    else
    let payouts := s.payouts.map fun p =>
      if p.id == id then
        { p with
          outletName := input.outletName
          platform := input.platform
          periodStart := input.periodStart
          periodEnd := input.periodEnd
          settlementDate := input.settlementDate
          totalOrders := input.totalOrders
          grossSalesAmt := input.grossSalesAmt
          restaurantDiscountAmt := input.restaurantDiscountAmt
          platformCommissionAmt := input.platformCommissionAmt
          taxesTcsTdsAmt := input.taxesTcsTdsAmt
          marketingAdsAmt := input.marketingAdsAmt
          finalPayoutAmt := input.finalPayoutAmt
          utrNumber := input.utrNumber }
      else p
    if n == 0 then (s, .error ⟨404, "payout not found"⟩)
    else ({ s with payouts := payouts }, .ok ())

/-- handlers.DeletePayout. -/
def DeletePayout (s : Store) (id : Int) : Store × Except ApiErr Unit :=
  let n := (s.payouts.filter (fun p => p.id == id)).length
  if n == 0 then (s, .error ⟨404, "payout not found"⟩)
  else ({ s with payouts := s.payouts.filter fun p => !(p.id == id) }, .ok ())

/-- One mutating request against the store. -/
inductive Op where
  | createTxn : TransactionInput → Op
  | updateTxn : Int → TransactionInput → Op
  | deleteTxn : Int → Op
  | createBill : BillInput → Op
  | updateBill : Int → BillInput → Op
  | deleteBill : Int → Op
  | createInvoice : InvoiceInput → Op
  | updateInvoice : Int → InvoiceInput → Op
  | deleteInvoice : Int → Op
  | createPayout : PayoutInput → Op
  | updatePayout : Int → PayoutInput → Op
  | deletePayout : Int → Op
  | link : Int → TransactionDocumentInput → Op
  | unlink : Int → Int → Op
deriving Repr, DecidableEq

/-- Dispatch of one request to its handler; the store component of the
result is kept, the response is discarded. -/
def step (s : Store) : Op → Store
  | .createTxn i => (CreateTransaction s i).1
  | .updateTxn id i => (UpdateTransaction s id i).1
  | .deleteTxn id => (DeleteTransaction s id).1
  | .createBill i => (CreateBill s i).1
  | .updateBill id i => (UpdateBill s id i).1
  | .deleteBill id => (DeleteBill s id).1
  | .createInvoice i => (CreateInvoice s i).1
  | .updateInvoice id i => (UpdateInvoice s id i).1
  | .deleteInvoice id => (DeleteInvoice s id).1
  | .createPayout i => (CreatePayout s i).1
  | .updatePayout id i => (UpdatePayout s id i).1
  | .deletePayout id => (DeletePayout s id).1
  | .link txnID i => (CreateTransactionLink s txnID i).1
  | .unlink txnID linkID => (DeleteTransactionLink s txnID linkID).1

/-- The store reached by a sequence of requests from the migrated store. -/
def run (ops : List Op) : Store := ops.foldl step emptyStore

/-- Transaction-side capacity invariant: the links of each transaction sum
to at most its amount. -/
def TxnCapInv (s : Store) : Prop :=
  ∀ t ∈ s.transactions, sumLinksForTxn s.transaction_documents t.id ≤ t.amount

/-- Document-side capacity invariant: the links against each bill, invoice
and payout sum to at most its amount (final_payout_amt for payouts). -/
def DocCapInv (s : Store) : Prop :=
  (∀ b ∈ s.bills, sumLinksForDoc s.transaction_documents "bill" b.id ≤ b.amount) ∧
  (∀ i ∈ s.invoices, sumLinksForDoc s.transaction_documents "invoice" i.id ≤ i.amount) ∧
  (∀ p ∈ s.payouts, sumLinksForDoc s.transaction_documents "payout" p.id ≤ p.finalPayoutAmt)

instance (s : Store) : Decidable (TxnCapInv s) := by
  unfold TxnCapInv; infer_instance

instance (s : Store) : Decidable (DocCapInv s) := by
  unfold DocCapInv; infer_instance

/-- Every stored row id is below the corresponding autoincrement counter,
and every link refers only to already-issued ids. -/
def IdBounds (s : Store) : Prop :=
  (∀ t ∈ s.transactions, t.id < s.nextTxnId) ∧
  (∀ b ∈ s.bills, b.id < s.nextBillId) ∧
  (∀ i ∈ s.invoices, i.id < s.nextInvoiceId) ∧
  (∀ p ∈ s.payouts, p.id < s.nextPayoutId) ∧
  (∀ td ∈ s.transaction_documents,
    td.id < s.nextLinkId ∧
    td.transactionId < s.nextTxnId ∧
    (td.documentType = "bill" → td.documentId < s.nextBillId) ∧
    (td.documentType = "invoice" → td.documentId < s.nextInvoiceId) ∧
    (td.documentType = "payout" → td.documentId < s.nextPayoutId))

/-- Every stored link has a positive amount (the CHECK(amount > 0) of the
schema, maintained by input validation). -/
def LinkPos (s : Store) : Prop :=
  ∀ td ∈ s.transaction_documents, 0 < td.amount

/-- Primary keys are unique in every table. -/
def UniqueIds (s : Store) : Prop :=
  (s.transactions.map (fun t => t.id)).Nodup ∧
  (s.bills.map (fun b => b.id)).Nodup ∧
  (s.invoices.map (fun i => i.id)).Nodup ∧
  (s.payouts.map (fun p => p.id)).Nodup ∧
  (s.transaction_documents.map (fun td => td.id)).Nodup

/-- The inductive invariant of the store. -/
def Inv (s : Store) : Prop :=
  TxnCapInv s ∧ DocCapInv s ∧ IdBounds s ∧ LinkPos s ∧ UniqueIds s

/-- An operation that is not one of the full-record updates. -/
def Op.updateFree : Op → Bool
  | .updateTxn _ _ => false
  | .updateBill _ _ => false
  | .updateInvoice _ _ => false
  | .updatePayout _ _ => false
  | _ => true

/-- A payout creation whose allocatable amount is non-negative (no other
operation constrains payout amounts). -/
def Op.payoutAmtNonneg : Op → Bool
  | .createPayout i => decide (0 ≤ i.finalPayoutAmt)
  | _ => true

/-- Everything of a bill except its status, for frame statements about
status reconciliation. -/
def Bill.core (b : Bill) :
    Int × Option Int × String × Option String × Option String × Money ×
      Option String × Option String × Nat :=
  (b.id, b.contactId, b.billNumber, b.issueDate, b.dueDate, b.amount,
   b.fileURL, b.notes, b.createdAt)

/-- Everything of an invoice except its status. -/
def Invoice.core (i : Invoice) :
    Int × Option Int × String × Option String × Option String × Money ×
      Option String × Option String × Nat :=
  (i.id, i.contactId, i.invoiceNumber, i.issueDate, i.dueDate, i.amount,
   i.fileURL, i.notes, i.createdAt)

/-- A concrete request sequence: an income transaction of 100 is fully
linked to a bill of 100, then the transaction amount is updated down to
50 without any re-check of the existing allocation. -/
def overAllocOps : List Op :=
  [Op.createTxn { accountId := 1, type := "income", amount := 100 },
   Op.createBill { amount := 100 },
   Op.link 1 { documentType := "bill", documentId := 1, amount := 100 },
   Op.updateTxn 1 { accountId := 1, type := "income", amount := 50 }]

/-- The view returned for transaction 1 after overAllocOps: the allocation
sum 100 exceeds the updated amount 50, so unallocated is negative. -/
def overAllocView : TransactionView :=
  { toTransaction :=
      { id := 1
        accountId := 1
        type := "income"
        amount := 50
        transactionDate := none
        description := none
        reference := none
        transferAccountId := none
        contactId := none
        createdAt := 0 }
    allocated := 100
    unallocated := -50 }

theorem sumLinksForTxn_append (l : List TransactionDocument)
    (td : TransactionDocument) (k : Int) :
    sumLinksForTxn (l ++ [td]) k =
      sumLinksForTxn l k + (if td.transactionId = k then td.amount else 0) := by
  simp only [sumLinksForTxn, List.filter_append, List.map_append, List.sum_append]
  by_cases h : td.transactionId = k <;> simp [h]

theorem sumLinksForDoc_append (l : List TransactionDocument)
    (td : TransactionDocument) (dt : String) (did : Int) :
    sumLinksForDoc (l ++ [td]) dt did =
      sumLinksForDoc l dt did +
        (if td.documentType = dt ∧ td.documentId = did then td.amount else 0) := by
  simp only [sumLinksForDoc, List.filter_append, List.map_append, List.sum_append]
  by_cases h1 : td.documentType = dt <;> by_cases h2 : td.documentId = did <;>
    simp [h1, h2]

theorem sumLinksForTxn_eq_zero (l : List TransactionDocument) (k : Int)
    (h : ∀ td ∈ l, td.transactionId ≠ k) : sumLinksForTxn l k = 0 := by
  have : l.filter (fun td => td.transactionId == k) = [] := by
    rw [List.filter_eq_nil_iff]
    intro td hm
    simp [h td hm]
  simp [sumLinksForTxn, this]

theorem sumLinksForDoc_eq_zero (l : List TransactionDocument) (dt : String)
    (did : Int) (h : ∀ td ∈ l, ¬(td.documentType = dt ∧ td.documentId = did)) :
    sumLinksForDoc l dt did = 0 := by
  have : l.filter (fun td => td.documentType == dt && td.documentId == did) = [] := by
    rw [List.filter_eq_nil_iff]
    intro td hm
    have := h td hm
    simp only [Bool.and_eq_true, beq_iff_eq]
    tauto
  simp [sumLinksForDoc, this]

theorem sum_amounts_le_of_sublist {t u : List TransactionDocument}
    (h : t.Sublist u) (hpos : ∀ td ∈ u, 0 ≤ td.amount) :
    (t.map (fun td => td.amount)).sum ≤ (u.map (fun td => td.amount)).sum := by
  refine List.Sublist.sum_le_sum (h.map (fun td => td.amount)) ?_
  intro a ha
  obtain ⟨td, hm, rfl⟩ := List.mem_map.1 ha
  exact hpos td hm

theorem sumLinksForTxn_filter_le (l : List TransactionDocument)
    (p : TransactionDocument → Bool) (k : Int)
    (hpos : ∀ td ∈ l, 0 ≤ td.amount) :
    sumLinksForTxn (l.filter p) k ≤ sumLinksForTxn l k := by
  refine sum_amounts_le_of_sublist ?_ ?_
  · exact List.Sublist.filter _ (List.filter_sublist l)
  · intro td hm
    exact hpos td (List.mem_of_mem_filter hm)

theorem sumLinksForDoc_filter_le (l : List TransactionDocument)
    (p : TransactionDocument → Bool) (dt : String) (did : Int)
    (hpos : ∀ td ∈ l, 0 ≤ td.amount) :
    sumLinksForDoc (l.filter p) dt did ≤ sumLinksForDoc l dt did := by
  refine sum_amounts_le_of_sublist ?_ ?_
  · exact List.Sublist.filter _ (List.filter_sublist l)
  · intro td hm
    exact hpos td (List.mem_of_mem_filter hm)

theorem sumLinksForTxn_perm {l1 l2 : List TransactionDocument} (h : l1.Perm l2)
    (k : Int) : sumLinksForTxn l1 k = sumLinksForTxn l2 k :=
  List.Perm.sum_eq ((h.filter _).map _)

theorem sumLinksForDoc_perm {l1 l2 : List TransactionDocument} (h : l1.Perm l2)
    (dt : String) (did : Int) : sumLinksForDoc l1 dt did = sumLinksForDoc l2 dt did :=
  List.Perm.sum_eq ((h.filter _).map _)

theorem updateDocumentStatus_frame (s : Store) (dt : String) (did : Int) :
    (updateDocumentStatus s dt did).transactions = s.transactions ∧
    (updateDocumentStatus s dt did).transaction_documents = s.transaction_documents ∧
    (updateDocumentStatus s dt did).payouts = s.payouts ∧
    (updateDocumentStatus s dt did).nextTxnId = s.nextTxnId ∧
    (updateDocumentStatus s dt did).nextBillId = s.nextBillId ∧
    (updateDocumentStatus s dt did).nextInvoiceId = s.nextInvoiceId ∧
    (updateDocumentStatus s dt did).nextPayoutId = s.nextPayoutId ∧
    (updateDocumentStatus s dt did).nextLinkId = s.nextLinkId ∧
    (updateDocumentStatus s dt did).clock = s.clock := by
  unfold updateDocumentStatus
  split
  · cases hb : s.findBill did <;> simp
  · split
    · cases hi : s.findInvoice did <;> simp
    · simp

theorem updateDocumentStatus_bills_core (s : Store) (dt : String) (did : Int) :
    (updateDocumentStatus s dt did).bills.map Bill.core = s.bills.map Bill.core := by
  unfold updateDocumentStatus
  split
  · cases hb : s.findBill did
    · rfl
    · simp only [List.map_map]
      refine List.map_congr_left ?_
      intro x _
      by_cases hx : x.id = did <;> simp [hx, Bill.core]
  · split
    · cases hi : s.findInvoice did <;> rfl
    · rfl

theorem updateDocumentStatus_invoices_core (s : Store) (dt : String) (did : Int) :
    (updateDocumentStatus s dt did).invoices.map Invoice.core =
      s.invoices.map Invoice.core := by
  unfold updateDocumentStatus
  split
  · cases hb : s.findBill did <;> rfl
  · split
    · cases hi : s.findInvoice did
      · rfl
      · simp only [List.map_map]
        refine List.map_congr_left ?_
        intro x _
        by_cases hx : x.id = did <;> simp [hx, Invoice.core]
    · rfl

theorem bill_core_mem (bs bs2 : List Bill)
    (h : bs2.map Bill.core = bs.map Bill.core) :
    ∀ b2 ∈ bs2, ∃ b ∈ bs, b2.id = b.id ∧ b2.amount = b.amount := by
  intro b2 hb2
  have : Bill.core b2 ∈ bs.map Bill.core := by
    rw [← h]
    exact List.mem_map_of_mem _ hb2
  obtain ⟨b, hb, hcore⟩ := List.mem_map.1 this
  refine ⟨b, hb, ?_, ?_⟩
  · have := congrArg (fun x => x.1) hcore
    simpa [Bill.core] using this.symm
  · have := congrArg (fun x => x.2.2.2.2.2.1) hcore
    simpa [Bill.core] using this.symm

theorem invoice_core_mem (is is2 : List Invoice)
    (h : is2.map Invoice.core = is.map Invoice.core) :
    ∀ i2 ∈ is2, ∃ i ∈ is, i2.id = i.id ∧ i2.amount = i.amount := by
  intro i2 hi2
  have : Invoice.core i2 ∈ is.map Invoice.core := by
    rw [← h]
    exact List.mem_map_of_mem _ hi2
  obtain ⟨i, hi, hcore⟩ := List.mem_map.1 this
  refine ⟨i, hi, ?_, ?_⟩
  · have := congrArg (fun x => x.1) hcore
    simpa [Invoice.core] using this.symm
  · have := congrArg (fun x => x.2.2.2.2.2.1) hcore
    simpa [Invoice.core] using this.symm

theorem foldl_option_append {α : Type} (rows : List α) (acc : List α) :
    rows.foldl (fun acc td => some (acc.getD [] ++ [td])) (some acc) =
      some (acc ++ rows) := by
  induction rows generalizing acc with
  | nil => simp
  | cons a tl ih => simp [ih]

theorem foldl_option_append_none {α : Type} (rows : List α) :
    (rows.foldl (fun acc td => some (acc.getD [] ++ [td])) none).getD [] = rows := by
  cases rows with
  | nil => rfl
  | cons a tl =>
    simp only [List.foldl_cons, Option.getD_none, List.nil_append]
    rw [foldl_option_append]
    simp

/-- C10: on every read of a transaction, bill, invoice or payout — the Get
handlers as well as every row returned by ListTransactions, ListBills,
ListInvoices and ListPayouts — the returned unallocated field is recomputed
as the stored amount (final_payout_amt for payouts) minus the current
allocation sum, with no clamping at zero: when the allocation sum exceeds
the stored amount the returned value is negative. -/
theorem c10_read_unallocated_fresh (s : Store) (id : Int) :
    (∀ v, GetTransaction s id = .ok v →
      v.unallocated = v.amount - sumLinksForTxn s.transaction_documents id ∧
      (v.amount < sumLinksForTxn s.transaction_documents id → v.unallocated < 0)) ∧
    (∀ v, GetBill s id = .ok v →
      v.unallocated = v.amount - sumLinksForDoc s.transaction_documents "bill" id ∧
      (v.amount < sumLinksForDoc s.transaction_documents "bill" id → v.unallocated < 0)) ∧
    (∀ v, GetInvoice s id = .ok v →
      v.unallocated = v.amount - sumLinksForDoc s.transaction_documents "invoice" id ∧
      (v.amount < sumLinksForDoc s.transaction_documents "invoice" id → v.unallocated < 0)) ∧
    (∀ v, GetPayout s id = .ok v →
      v.unallocated = v.finalPayoutAmt - sumLinksForDoc s.transaction_documents "payout" id ∧
      (v.finalPayoutAmt < sumLinksForDoc s.transaction_documents "payout" id →
        v.unallocated < 0)) ∧
    (∀ q v, v ∈ ListTransactions s q →
      v.unallocated = v.amount - sumLinksForTxn s.transaction_documents v.id) ∧
    (∀ q v, v ∈ ListBills s q →
      v.unallocated = v.amount - sumLinksForDoc s.transaction_documents "bill" v.id) ∧
    (∀ q v, v ∈ ListInvoices s q →
      v.unallocated = v.amount - sumLinksForDoc s.transaction_documents "invoice" v.id) ∧
    (∀ q v, v ∈ ListPayouts s q →
      v.unallocated =
        v.finalPayoutAmt - sumLinksForDoc s.transaction_documents "payout" v.id) := by
  refine ⟨?_, ?_, ?_, ?_, ?_, ?_, ?_, ?_⟩
  · intro v hv
    unfold GetTransaction at hv
    split at hv
    · exact absurd hv (by simp)
    · rename_i t ht
      have hveq : scanTransaction s t = v := by
        injection hv
      have hid : t.id = id := by
        have := List.find?_some (p := fun t : Transaction => t.id == id)
          (by simpa [Store.findTxn] using ht)
        simpa using this
      subst hveq
      have h1 : (scanTransaction s t).unallocated =
          (scanTransaction s t).amount - sumLinksForTxn s.transaction_documents id := by
        simp [scanTransaction, hid]
      refine ⟨h1, ?_⟩
      intro hlt
      rw [h1]
      exact sub_neg.mpr hlt
  · intro v hv
    unfold GetBill at hv
    split at hv
    · exact absurd hv (by simp)
    · rename_i b hb
      have hveq : scanBill s b = v := by
        injection hv
      have hid : b.id = id := by
        have := List.find?_some (p := fun b : Bill => b.id == id)
          (by simpa [Store.findBill] using hb)
        simpa using this
      subst hveq
      have h1 : (scanBill s b).unallocated =
          (scanBill s b).amount - sumLinksForDoc s.transaction_documents "bill" id := by
        simp [scanBill, hid]
      refine ⟨h1, ?_⟩
      intro hlt
      rw [h1]
      exact sub_neg.mpr hlt
  · intro v hv
    unfold GetInvoice at hv
    split at hv
    · exact absurd hv (by simp)
    · rename_i i hi
      have hveq : scanInvoice s i = v := by
        injection hv
      have hid : i.id = id := by
        have := List.find?_some (p := fun i : Invoice => i.id == id)
          (by simpa [Store.findInvoice] using hi)
        simpa using this
      subst hveq
      have h1 : (scanInvoice s i).unallocated =
          (scanInvoice s i).amount - sumLinksForDoc s.transaction_documents "invoice" id := by
        simp [scanInvoice, hid]
      refine ⟨h1, ?_⟩
      intro hlt
      rw [h1]
      exact sub_neg.mpr hlt
  · intro v hv
    unfold GetPayout at hv
    split at hv
    · exact absurd hv (by simp)
    · rename_i p hp
      have hveq : scanPayout s p = v := by
        injection hv
      have hid : p.id = id := by
        have := List.find?_some (p := fun p : Payout => p.id == id)
          (by simpa [Store.findPayout] using hp)
        simpa using this
      subst hveq
      have h1 : (scanPayout s p).unallocated =
          (scanPayout s p).finalPayoutAmt -
            sumLinksForDoc s.transaction_documents "payout" id := by
        simp [scanPayout, hid]
      refine ⟨h1, ?_⟩
      intro hlt
      rw [h1]
      exact sub_neg.mpr hlt
  · intro q v hv
    unfold ListTransactions at hv
    obtain ⟨t, _, hveq⟩ := List.mem_map.1 hv
    subst hveq
    simp [scanTransaction]
  · intro q v hv
    unfold ListBills at hv
    obtain ⟨b, _, hveq⟩ := List.mem_map.1 hv
    subst hveq
    simp [scanBill]
  · intro q v hv
    unfold ListInvoices at hv
    obtain ⟨i, _, hveq⟩ := List.mem_map.1 hv
    subst hveq
    simp [scanInvoice]
  · intro q v hv
    unfold ListPayouts at hv
    obtain ⟨p, _, hveq⟩ := List.mem_map.1 hv
    subst hveq
    simp [scanPayout]

/-- C10 witness: after overAllocOps, reading transaction 1 returns an
unallocated value equal to amount minus the allocation sum, and it is
negative. -/
theorem c10_witness :
    overAllocView.unallocated =
      overAllocView.amount - sumLinksForTxn (run overAllocOps).transaction_documents 1 ∧
    overAllocView.unallocated < 0 :=
  ⟨((c10_read_unallocated_fresh (run overAllocOps) 1).1 overAllocView (by rfl)).1,
   ((c10_read_unallocated_fresh (run overAllocOps) 1).1 overAllocView (by rfl)).2
     (by decide)⟩

/-- C9: ListLinks returns the links of the transaction ordered by creation
time ascending, and the empty list (not an absent value) when the
transaction has no links. -/
theorem c9_list_links_ordered (s : Store) (txnID : Int) :
    ∃ l, ListTransactionLinks s txnID = .ok l ∧
      List.Pairwise (fun a b : TransactionDocument => a.createdAt ≤ b.createdAt) l ∧
      (∀ td, td ∈ l ↔ td ∈ s.transaction_documents ∧ td.transactionId = txnID) ∧
      ((∀ td ∈ s.transaction_documents, td.transactionId ≠ txnID) → l = []) := by
  refine ⟨(s.transaction_documents.filter
      fun td => td.transactionId == txnID).insertionSort
        (fun a b => a.createdAt ≤ b.createdAt), ?_, ?_, ?_, ?_⟩
  · unfold ListTransactionLinks
    simp only [foldl_option_append_none]
  · exact List.sorted_insertionSort _ _
  · intro td
    constructor
    · intro hm
      have h1 := (List.perm_insertionSort
        (fun a b : TransactionDocument => a.createdAt ≤ b.createdAt) _).mem_iff.1 hm
      have h2 := List.mem_filter.1 h1
      refine ⟨h2.1, by simpa using h2.2⟩
    · intro hpair
      refine (List.perm_insertionSort
        (fun a b : TransactionDocument => a.createdAt ≤ b.createdAt) _).mem_iff.2 ?_
      exact List.mem_filter.2 ⟨hpair.1, by simpa using hpair.2⟩
  · intro h
    have hnil : s.transaction_documents.filter
        (fun td => td.transactionId == txnID) = [] := by
      rw [List.filter_eq_nil_iff]
      intro td hm
      simp [h td hm]
    rw [hnil]
    rfl

/-- C9 witness: the list of links of transaction 1 after overAllocOps. -/
theorem c9_witness :
    ∃ l, ListTransactionLinks (run overAllocOps) 1 = .ok l ∧
      List.Pairwise (fun a b : TransactionDocument => a.createdAt ≤ b.createdAt) l ∧
      (∀ td, td ∈ l ↔
        td ∈ (run overAllocOps).transaction_documents ∧ td.transactionId = 1) ∧
      ((∀ td ∈ (run overAllocOps).transaction_documents, td.transactionId ≠ 1) →
        l = []) :=
  c9_list_links_ordered (run overAllocOps) 1

/-- C5 counterexample: a link request for an existing payout with positive
amount and document id is rejected by input validation with InvalidInput;
it does not proceed to the existence and capacity checks. -/
theorem c5_counterexample :
    TransactionDocumentInput.Validate
        { documentType := "payout", documentId := 1, amount := 5 } =
      "document_type must be one of: bill, invoice" ∧
    (CreateTransactionLink
        (run [Op.createTxn { accountId := 1, type := "income", amount := 100 },
          Op.createPayout
            { outletName := "A", platform := "Swiggy", finalPayoutAmt := 100 }]) 1
        { documentType := "payout", documentId := 1, amount := 5 }).2 =
      .error ⟨400, "document_type must be one of: bill, invoice"⟩ ∧
    (CreateTransactionLink
        (run [Op.createTxn { accountId := 1, type := "income", amount := 100 },
          Op.createPayout
            { outletName := "A", platform := "Swiggy", finalPayoutAmt := 100 }]) 1
        { documentType := "payout", documentId := 1, amount := 5 }).1 =
      run [Op.createTxn { accountId := 1, type := "income", amount := 100 },
        Op.createPayout
          { outletName := "A", platform := "Swiggy", finalPayoutAmt := 100 }] :=
  ⟨rfl, rfl, rfl⟩

/-- C5 (amended): link-input validation accepts documentType exactly when
it is bill or invoice (together with positive document id and amount) and
rejects any other value, payout included, with InvalidInput before any
mutation. -/
theorem c5_link_validation (input : TransactionDocumentInput) :
    (input.Validate = "" ↔
      (input.documentType = "bill" ∨ input.documentType = "invoice") ∧
        0 < input.documentId ∧ 0 < input.amount) ∧
    (∀ s txnID, input.Validate ≠ "" →
      CreateTransactionLink s txnID input = (s, .error ⟨400, input.Validate⟩)) := by
  constructor
  · constructor
    · intro he
      unfold TransactionDocumentInput.Validate at he
      by_cases hb : (input.documentType == "bill" || input.documentType == "invoice") = true
      · rw [hb] at he
        simp only [Bool.not_true, Bool.false_eq_true, if_false] at he
        by_cases h2 : input.documentId ≤ 0
        · rw [if_pos h2] at he
          exact absurd he (by decide)
        · rw [if_neg h2] at he
          by_cases h3 : input.amount ≤ 0
          · rw [if_pos h3] at he
            exact absurd he (by decide)
          · exact ⟨by simpa using hb, not_le.mp h2, not_le.mp h3⟩
      · rw [Bool.not_eq_true] at hb
        rw [hb] at he
        simp only [Bool.not_false, if_true] at he
        exact absurd he (by decide)
    · intro hc
      obtain ⟨hd, hid, ha⟩ := hc
      unfold TransactionDocumentInput.Validate
      have hb : (input.documentType == "bill" || input.documentType == "invoice") = true := by
        rcases hd with h | h <;> simp [h]
      rw [hb]
      simp only [Bool.not_true, Bool.false_eq_true, if_false]
      rw [if_neg (not_le.mpr hid), if_neg (not_le.mpr ha)]
  · intro s txnID hne
    unfold CreateTransactionLink
    have hb : (input.Validate != "") = true := by simpa using hne
    rw [hb]
    simp

/-- C5 witness: the payout link request is rejected without mutation on the
empty store. -/
theorem c5_witness :
    CreateTransactionLink emptyStore 1
        { documentType := "payout", documentId := 1, amount := 5 } =
      (emptyStore, .error ⟨400, "document_type must be one of: bill, invoice"⟩) :=
  (c5_link_validation
    { documentType := "payout", documentId := 1, amount := 5 }).2
      emptyStore 1 (by decide)

/-- C8 counterexample: CreatePayout persists the platform exactly as
submitted, so an accepted payout with platform Swiggy is stored with the
capitalized value rather than its lowercase normalization. -/
theorem c8_counterexample :
    (CreatePayout emptyStore
        { outletName := "Outlet", platform := "Swiggy" }).1.payouts.map
      (fun p => p.platform) = ["Swiggy"] ∧
    lowerString "Swiggy" = "swiggy" ∧ ("Swiggy" : String) ≠ "swiggy" :=
  ⟨rfl, rfl, by decide⟩

/-- The platform values admitted by PayoutInput.Validate: any casing whose
lowercase folding is swiggy or zomato. -/
theorem payoutInput_validate_platform (p : PayoutInput) (hv : p.Validate = "") :
    lowerString p.platform = "swiggy" ∨ lowerString p.platform = "zomato" := by
  unfold PayoutInput.Validate at hv
  by_cases h1 : (p.outletName == "") = true
  · rw [if_pos h1] at hv
    exact absurd hv (by decide)
  · rw [if_neg h1] at hv
    by_cases h2 : (!(lowerString p.platform == "swiggy" ||
        lowerString p.platform == "zomato")) = true
    · rw [if_pos h2] at hv
      exact absurd hv (by decide)
    · have h3 : (lowerString p.platform == "swiggy" ||
          lowerString p.platform == "zomato") = true := by
        cases hx : (lowerString p.platform == "swiggy" ||
            lowerString p.platform == "zomato") with
        | false => exact absurd (by rw [hx]; decide) h2
        | true => rfl
      rw [Bool.or_eq_true] at h3
      rcases h3 with h | h
      · exact Or.inl (by simpa using h)
      · exact Or.inr (by simpa using h)

/-- C8 (amended): an accepted CreatePayout persists the submitted platform
value unchanged, and only when that exact value is Swiggy or Zomato — any
other accepted casing violates the payouts CHECK at INSERT, returning the
store error with nothing written. UpdatePayout lowercases the platform
before the UPDATE, and the lowercase value always violates the CHECK, so
an accepted update of an existing payout returns the store error and an
update never persists anything; a payout rejected by validation also
causes no write. -/
theorem c8_platform_persistence (s : Store) (input : PayoutInput) :
    (input.Validate = "" →
      (input.platform = "Swiggy" ∨ input.platform = "Zomato") →
      (CreatePayout s input).1.payouts = s.payouts ++
        [{ id := s.nextPayoutId
           outletName := input.outletName
           platform := input.platform
           periodStart := input.periodStart
           periodEnd := input.periodEnd
           settlementDate := input.settlementDate
           totalOrders := input.totalOrders
           grossSalesAmt := input.grossSalesAmt
           restaurantDiscountAmt := input.restaurantDiscountAmt
           platformCommissionAmt := input.platformCommissionAmt
           taxesTcsTdsAmt := input.taxesTcsTdsAmt
           marketingAdsAmt := input.marketingAdsAmt
           finalPayoutAmt := input.finalPayoutAmt
           utrNumber := input.utrNumber
           createdAt := s.clock }]) ∧
    (input.Validate = "" →
      ¬(input.platform = "Swiggy" ∨ input.platform = "Zomato") →
      CreatePayout s input = (s, .error platformCheckErr)) ∧
    (input.Validate = "" → ∀ id, (∃ p ∈ s.payouts, p.id = id) →
      UpdatePayout s id input = (s, .error platformCheckErr)) ∧
    (∀ id, (UpdatePayout s id input).1 = s) ∧
    (input.Validate ≠ "" →
      CreatePayout s input = (s, .error ⟨400, input.Validate⟩) ∧
      ∀ id, UpdatePayout s id input = (s, .error ⟨400, input.Validate⟩)) := by
  have hcklow : input.Validate = "" →
      platformCheckOk (lowerString input.platform) = false := by
    intro hv
    rcases payoutInput_validate_platform input hv with h | h <;> rw [h] <;> decide
  refine ⟨?_, ?_, ?_, ?_, ?_⟩
  · intro hv hcanon
    unfold CreatePayout
    have hb : (input.Validate != "") = false := by simp [hv]
    have hck : (!(platformCheckOk input.platform)) = false := by
      rcases hcanon with h | h <;> simp [platformCheckOk, h]
    rw [hb, hck]
    simp
  · intro hv hnon
    unfold CreatePayout
    have hb : (input.Validate != "") = false := by simp [hv]
    push_neg at hnon
    have hck : (!(platformCheckOk input.platform)) = true := by
      simp [platformCheckOk, hnon.1, hnon.2]
    rw [hb, hck]
    simp
  · intro hv id hex
    unfold UpdatePayout
    have hb : (input.Validate != "") = false := by simp [hv]
    rw [hb]
    dsimp only
    have hn : ((s.payouts.filter (fun p => p.id == id)).length != 0) = true := by
      obtain ⟨p, hp, hpid⟩ := hex
      have hmem : p ∈ s.payouts.filter (fun p => p.id == id) := by
        rw [List.mem_filter]
        exact ⟨hp, by simp [hpid]⟩
      have hlen : 0 < (s.payouts.filter (fun p => p.id == id)).length :=
        List.length_pos.mpr (List.ne_nil_of_mem hmem)
      simpa using Nat.pos_iff_ne_zero.mp hlen
    simp [hn, hcklow hv]
  · intro id
    unfold UpdatePayout
    by_cases hval : (input.Validate != "") = true
    · rw [if_pos hval]
    · rw [if_neg hval]
      dsimp only
      by_cases hc : (((s.payouts.filter (fun p => p.id == id)).length != 0) &&
          !(platformCheckOk (lowerString input.platform))) = true
      · rw [if_pos hc]
      · rw [if_neg hc]
        by_cases hn0 : ((s.payouts.filter (fun p => p.id == id)).length == 0) = true
        · rw [if_pos hn0]
        · exfalso
          apply hc
          have hv : input.Validate = "" := by simpa using hval
          rw [hcklow hv]
          simp at hn0 ⊢
          exact hn0
  · intro hne
    have hb : (input.Validate != "") = true := by simpa using hne
    refine ⟨?_, ?_⟩
    · unfold CreatePayout
      rw [hb]
      simp
    · intro id
      unfold UpdatePayout
      rw [hb]
      simp

/-- C8 witness: an accepted create with platform Swiggy stores Swiggy
verbatim, an accepted create with platform swiggy fails the CHECK with
nothing written, and an accepted update of existing payout 1 with platform
ZOMATO fails the CHECK with nothing written. -/
theorem c8_witness :
    ((CreatePayout emptyStore { outletName := "O", platform := "Swiggy" }).1.payouts =
      [{ id := 1
         outletName := "O"
         platform := "Swiggy"
         periodStart := none
         periodEnd := none
         settlementDate := none
         totalOrders := 0
         grossSalesAmt := 0
         restaurantDiscountAmt := 0
         platformCommissionAmt := 0
         taxesTcsTdsAmt := 0
         marketingAdsAmt := 0
         finalPayoutAmt := 0
         utrNumber := ""
         createdAt := 0 }]) ∧
    (CreatePayout emptyStore { outletName := "O", platform := "swiggy" } =
      (emptyStore, .error platformCheckErr)) ∧
    (UpdatePayout
        (CreatePayout emptyStore { outletName := "O", platform := "Swiggy" }).1 1
        { outletName := "O", platform := "ZOMATO" } =
      ((CreatePayout emptyStore { outletName := "O", platform := "Swiggy" }).1,
        .error platformCheckErr)) := by
  refine ⟨?_, ?_, ?_⟩
  · exact (c8_platform_persistence emptyStore
      { outletName := "O", platform := "Swiggy" }).1 (by decide) (Or.inl rfl)
  · exact (c8_platform_persistence emptyStore
      { outletName := "O", platform := "swiggy" }).2.1 (by decide) (by decide)
  · exact (c8_platform_persistence
      (CreatePayout emptyStore { outletName := "O", platform := "Swiggy" }).1
      { outletName := "O", platform := "ZOMATO" }).2.2.1 (by decide) 1 (by decide)

/-- C2: a link request exceeding the unallocated balance of the
transaction or of the document fails with a CapacityExceeded message
carrying both the available and the requested amounts, and mutates
nothing. -/
theorem c2_capacity_exceeded_pure_failure (s : Store) (txnID : Int)
    (input : TransactionDocumentInput) (t : Transaction) (A : Money)
    (hv : input.Validate = "")
    (ht : s.findTxn txnID = some t)
    (hA : docAmountLookup s input.documentType input.documentId = .found A)
    (hover : t.amount - sumLinksForTxn s.transaction_documents txnID < input.amount ∨
      A - sumLinksForDoc s.transaction_documents input.documentType input.documentId <
        input.amount) :
    (CreateTransactionLink s txnID input).1 = s ∧
    (CreateTransactionLink s txnID input).2 = .error ⟨400,
      if t.amount - sumLinksForTxn s.transaction_documents txnID < input.amount then
        "transaction only has " ++
          toString (t.amount - sumLinksForTxn s.transaction_documents txnID) ++
          " paise unallocated (requested " ++ toString input.amount ++ ")"
      else
        input.documentType ++ " only has " ++
          toString (A - sumLinksForDoc s.transaction_documents input.documentType
            input.documentId) ++
          " paise unallocated (requested " ++ toString input.amount ++ ")"⟩ := by
  by_cases hc : t.amount - sumLinksForTxn s.transaction_documents txnID < input.amount
  · constructor <;> simp [CreateTransactionLink, hv, ht, hc]
  · have hd : A - sumLinksForDoc s.transaction_documents input.documentType
        input.documentId < input.amount := hover.resolve_left hc
    constructor <;> simp [CreateTransactionLink, hv, ht, hA, hc, hd]

/-- C2 witness: requesting 15 from a transaction with 10 unallocated fails
with the dual-amount message and leaves the store unchanged. -/
theorem c2_witness :
    (CreateTransactionLink
        (run [Op.createTxn { accountId := 1, type := "income", amount := 10 },
          Op.createBill { amount := 20 }]) 1
        { documentType := "bill", documentId := 1, amount := 15 }).1 =
      run [Op.createTxn { accountId := 1, type := "income", amount := 10 },
        Op.createBill { amount := 20 }] ∧
    (CreateTransactionLink
        (run [Op.createTxn { accountId := 1, type := "income", amount := 10 },
          Op.createBill { amount := 20 }]) 1
        { documentType := "bill", documentId := 1, amount := 15 }).2 =
      .error ⟨400, "transaction only has 10 paise unallocated (requested 15)"⟩ := by
  have h := c2_capacity_exceeded_pure_failure
    (run [Op.createTxn { accountId := 1, type := "income", amount := 10 },
      Op.createBill { amount := 20 }]) 1
    { documentType := "bill", documentId := 1, amount := 15 }
    { id := 1
      accountId := 1
      type := "income"
      amount := 10
      transactionDate := none
      description := none
      reference := none
      transferAccountId := none
      contactId := none
      createdAt := 0 } 20
    (by decide) (by rfl) (by rfl) (Or.inl (by decide))
  exact ⟨h.1, h.2⟩

theorem DeleteTransactionLink_links (s : Store) (txnID linkID : Int) :
    (DeleteTransactionLink s txnID linkID).1.transaction_documents =
      s.transaction_documents.filter
        (fun td => !(td.id == linkID && td.transactionId == txnID)) := by
  unfold DeleteTransactionLink
  by_cases hn : (s.transaction_documents.filter
      (fun td => td.id == linkID && td.transactionId == txnID)) = []
  · simp only [hn, List.length_nil, beq_self_eq_true, if_true]
    rw [eq_comm, List.filter_eq_self]
    intro td hm
    have hx := List.filter_eq_nil_iff.1 hn td hm
    rw [Bool.not_eq_true] at hx
    simp [hx]
  · have hlen : ((s.transaction_documents.filter
        (fun td => td.id == linkID && td.transactionId == txnID)).length == 0) = false := by
      simp [List.length_eq_zero, hn]
    simp only [hlen, Bool.false_eq_true, if_false]
    split
    · exact (updateDocumentStatus_frame _ _ _).2.1
    · rfl

/-- C6: Unlink deletes only the row matching both the link id and the
transaction id, and when no row matches both (in particular when the link
exists under a different transaction) it returns NotFound(link) with the
store unchanged and reconciliation skipped. -/
theorem c6_unlink_requires_both (s : Store) (txnID linkID : Int) :
    ((¬ ∃ td ∈ s.transaction_documents, td.id = linkID ∧ td.transactionId = txnID) →
      DeleteTransactionLink s txnID linkID = (s, .error ⟨404, "link not found"⟩)) ∧
    (DeleteTransactionLink s txnID linkID).1.transaction_documents =
      s.transaction_documents.filter
        (fun td => !(td.id == linkID && td.transactionId == txnID)) := by
  constructor
  · intro h
    have hfil : s.transaction_documents.filter
        (fun td => td.id == linkID && td.transactionId == txnID) = [] := by
      rw [List.filter_eq_nil_iff]
      intro td hm hmatch
      simp only [Bool.and_eq_true, beq_iff_eq] at hmatch
      exact h ⟨td, hm, hmatch⟩
    unfold DeleteTransactionLink
    simp [hfil]
  · exact DeleteTransactionLink_links s txnID linkID

/-- C6 witness: link 1 belongs to transaction 1, so unlinking it through
transaction 2 affects no row and returns NotFound with the store
unchanged. -/
theorem c6_witness :
    DeleteTransactionLink
        (run [Op.createTxn { accountId := 1, type := "income", amount := 100 },
          Op.createBill { amount := 100 },
          Op.link 1 { documentType := "bill", documentId := 1, amount := 40 }]) 2 1 =
      (run [Op.createTxn { accountId := 1, type := "income", amount := 100 },
        Op.createBill { amount := 100 },
        Op.link 1 { documentType := "bill", documentId := 1, amount := 40 }],
       .error ⟨404, "link not found"⟩) :=
  (c6_unlink_requires_both
    (run [Op.createTxn { accountId := 1, type := "income", amount := 100 },
      Op.createBill { amount := 100 },
      Op.link 1 { documentType := "bill", documentId := 1, amount := 40 }]) 2 1).1
    (by decide)

/-- C3: status reconciliation persists, for a bill or invoice, exactly the
pure function statusCalcFromTotals of the stored amount and the current
allocation sum (with paid as the terminal status of bills and received for
invoices), and is a no-op for payouts, which carry no status at all. -/
theorem c3_status_pure_function (s : Store) (docID : Int) :
    (updateDocumentStatus s "payout" docID = s) ∧
    (∀ b, s.findBill docID = some b →
      ∀ b2 ∈ (updateDocumentStatus s "bill" docID).bills, b2.id = docID →
        b2.status = statusCalcFromTotals b.amount
          (sumLinksForDoc s.transaction_documents "bill" docID) "paid") ∧
    (∀ i, s.findInvoice docID = some i →
      ∀ i2 ∈ (updateDocumentStatus s "invoice" docID).invoices, i2.id = docID →
        i2.status = statusCalcFromTotals i.amount
          (sumLinksForDoc s.transaction_documents "invoice" docID) "received") := by
  refine ⟨rfl, ?_, ?_⟩
  · intro b hb b2 hb2 hbid
    have hstore : updateDocumentStatus s "bill" docID =
        { s with bills := s.bills.map fun x =>
            if x.id == docID then
              { x with status := statusCalcFromTotals b.amount (sumLinksForDoc s.transaction_documents "bill" docID) "paid" }
            else x } := by
      unfold updateDocumentStatus
      rw [if_pos (by decide), hb]
    rw [hstore] at hb2
    simp only at hb2
    obtain ⟨b0, _, hbeq⟩ := List.mem_map.1 hb2
    by_cases h0 : (b0.id == docID) = true
    · rw [if_pos h0] at hbeq
      subst hbeq
      rfl
    · rw [if_neg h0] at hbeq
      subst hbeq
      simp [hbid] at h0
  · intro i hi i2 hi2 hiid
    have hstore : updateDocumentStatus s "invoice" docID =
        { s with invoices := s.invoices.map fun x =>
            if x.id == docID then
              { x with status := statusCalcFromTotals i.amount (sumLinksForDoc s.transaction_documents "invoice" docID) "received" }
            else x } := by
      unfold updateDocumentStatus
      rw [if_neg (by decide), if_pos (by decide), hi]
    rw [hstore] at hi2
    simp only at hi2
    obtain ⟨i0, _, hieq⟩ := List.mem_map.1 hi2
    by_cases h0 : (i0.id == docID) = true
    · rw [if_pos h0] at hieq
      subst hieq
      rfl
    · rw [if_neg h0] at hieq
      subst hieq
      simp [hiid] at h0

/-- C3 witness: a bill of 1000 with 400 allocated is persisted as partial
when reconciled, and reconciliation of a payout target changes nothing. -/
theorem c3_witness :
    updateDocumentStatus
        (run [Op.createTxn { accountId := 1, type := "income", amount := 1000 },
          Op.createBill { amount := 1000 },
          Op.link 1 { documentType := "bill", documentId := 1, amount := 400 }])
        "payout" 1 =
      run [Op.createTxn { accountId := 1, type := "income", amount := 1000 },
        Op.createBill { amount := 1000 },
        Op.link 1 { documentType := "bill", documentId := 1, amount := 400 }] ∧
    ∀ b2 ∈ (updateDocumentStatus
        (run [Op.createTxn { accountId := 1, type := "income", amount := 1000 },
          Op.createBill { amount := 1000 },
          Op.link 1 { documentType := "bill", documentId := 1, amount := 400 }])
        "bill" 1).bills, b2.id = 1 → b2.status = "partial" := by
  constructor
  · exact (c3_status_pure_function
      (run [Op.createTxn { accountId := 1, type := "income", amount := 1000 },
        Op.createBill { amount := 1000 },
        Op.link 1 { documentType := "bill", documentId := 1, amount := 400 }]) 1).1
  · intro b2 hb2 hbid
    exact (c3_status_pure_function
      (run [Op.createTxn { accountId := 1, type := "income", amount := 1000 },
        Op.createBill { amount := 1000 },
        Op.link 1 { documentType := "bill", documentId := 1, amount := 400 }]) 1).2.1
      { id := 1
        contactId := none
        billNumber := ""
        issueDate := none
        dueDate := none
        amount := 1000
        status := "partial"
        fileURL := none
        notes := none
        createdAt := 1 }
      (by rfl) b2 hb2 hbid

theorem DeleteTransaction_keep (s : Store) (id : Int) (t : Transaction)
    (ht : t ∈ s.transactions) (hne : t.id ≠ id) :
    t ∈ (DeleteTransaction s id).1.transactions := by
  unfold DeleteTransaction
  by_cases hn : (s.transactions.filter (fun t => t.id == id)) = []
  · simp only [hn, List.length_nil, beq_self_eq_true, if_true]
    exact ht
  · have hlen : ((s.transactions.filter (fun t => t.id == id)).length == 0) = false := by
      simp [List.length_eq_zero, hn]
    simp only [hlen, Bool.false_eq_true, if_false]
    exact List.mem_filter.2 ⟨ht, by simp [hne]⟩

/-- C4: a valid transfer input with no explicit reference yields exactly
two new transaction rows, an expense of the input amount on the source
account with transfer_account_id = destination and an income of the same
amount on the destination with transfer_account_id = source, both carrying
the reference TRF-<id> where <id> is the generated id of the expense row;
deleting either one of the two rows does not delete the other. -/
theorem c4_transfer_pair (s : Store) (input : TransactionInput) (dest : Int)
    (hv : input.Validate = "") (htype : input.type = "transfer")
    (href : input.reference = none) (hdst : input.transferAccountId = some dest) :
    (CreateTransaction s input).2 = .ok s.nextTxnId ∧
    (CreateTransaction s input).1.transactions.length = s.transactions.length + 2 ∧
    ({ id := s.nextTxnId
       accountId := input.accountId
       type := "expense"
       amount := input.amount
       transactionDate := input.transactionDate
       description := input.description
       reference := some ("TRF-" ++ toString s.nextTxnId)
       transferAccountId := input.transferAccountId
       contactId := input.contactId
       createdAt := s.clock } : Transaction) ∈
      (CreateTransaction s input).1.transactions ∧
    ({ id := s.nextTxnId + 1
       accountId := dest
       type := "income"
       amount := input.amount
       transactionDate := input.transactionDate
       description := input.description
       reference := some ("TRF-" ++ toString s.nextTxnId)
       transferAccountId := some input.accountId
       contactId := input.contactId
       createdAt := s.clock + 1 } : Transaction) ∈
      (CreateTransaction s input).1.transactions ∧
    ({ id := s.nextTxnId + 1
       accountId := dest
       type := "income"
       amount := input.amount
       transactionDate := input.transactionDate
       description := input.description
       reference := some ("TRF-" ++ toString s.nextTxnId)
       transferAccountId := some input.accountId
       contactId := input.contactId
       createdAt := s.clock + 1 } : Transaction) ∈
      (DeleteTransaction (CreateTransaction s input).1 s.nextTxnId).1.transactions ∧
    ({ id := s.nextTxnId
       accountId := input.accountId
       type := "expense"
       amount := input.amount
       transactionDate := input.transactionDate
       description := input.description
       reference := some ("TRF-" ++ toString s.nextTxnId)
       transferAccountId := input.transferAccountId
       contactId := input.contactId
       createdAt := s.clock } : Transaction) ∈
      (DeleteTransaction (CreateTransaction s input).1
        (s.nextTxnId + 1)).1.transactions := by
  have hstore : CreateTransaction s input = (transferStore s input, .ok s.nextTxnId) := by
    unfold CreateTransaction transferStore transferExpenseRow transferIncomeRow
      transferPatch transferAutoRef
    rw [if_neg (show ¬(input.Validate != "") = true by simp [hv])]
    rw [if_pos (show (input.type == "transfer") = true by simp [htype])]
    rw [href]
  have htxns : (CreateTransaction s input).1.transactions =
      (s.transactions ++
        [transferExpenseRow s input, transferIncomeRow s input]).map (transferPatch s) := by
    rw [hstore]
    rfl
  have hexp :
      ({ id := s.nextTxnId
         accountId := input.accountId
         type := "expense"
         amount := input.amount
         transactionDate := input.transactionDate
         description := input.description
         reference := some ("TRF-" ++ toString s.nextTxnId)
         transferAccountId := input.transferAccountId
         contactId := input.contactId
         createdAt := s.clock } : Transaction) ∈
        (CreateTransaction s input).1.transactions := by
    rw [htxns]
    refine List.mem_map.2 ⟨transferExpenseRow s input, ?_, ?_⟩
    · exact List.mem_append_right _ (List.mem_cons_self _ _)
    · rfl
  have hinc :
      ({ id := s.nextTxnId + 1
         accountId := dest
         type := "income"
         amount := input.amount
         transactionDate := input.transactionDate
         description := input.description
         reference := some ("TRF-" ++ toString s.nextTxnId)
         transferAccountId := some input.accountId
         contactId := input.contactId
         createdAt := s.clock + 1 } : Transaction) ∈
        (CreateTransaction s input).1.transactions := by
    rw [htxns]
    refine List.mem_map.2 ⟨transferIncomeRow s input, ?_, ?_⟩
    · exact List.mem_append_right _ (List.mem_cons_of_mem _ (List.mem_cons_self _ _))
    · unfold transferPatch transferIncomeRow transferAutoRef
      rw [hdst]
      rfl
  refine ⟨by rw [hstore], ?_, hexp, hinc, ?_, ?_⟩
  · rw [htxns]
    simp
  · exact DeleteTransaction_keep _ _ _ hinc (by simp)
  · refine DeleteTransaction_keep _ _ _ hexp ?_
    show s.nextTxnId ≠ s.nextTxnId + 1
    omega

/-- C4 witness: a transfer of 500 from account 1 to account 2 on the fresh
store produces the TRF-1 expense and income pair, and deleting either row
keeps the other. -/
theorem c4_witness :
    (CreateTransaction emptyStore
      { accountId := 1, type := "transfer", amount := 500,
        transferAccountId := some 2 }).2 = .ok 1 ∧
    (CreateTransaction emptyStore
      { accountId := 1, type := "transfer", amount := 500,
        transferAccountId := some 2 }).1.transactions.length = 0 + 2 ∧
    ({ id := 1
       accountId := 1
       type := "expense"
       amount := 500
       transactionDate := none
       description := none
       reference := some ("TRF-" ++ toString (1 : Int))
       transferAccountId := some 2
       contactId := none
       createdAt := 0 } : Transaction) ∈
      (CreateTransaction emptyStore
        { accountId := 1, type := "transfer", amount := 500,
          transferAccountId := some 2 }).1.transactions ∧
    ({ id := 1 + 1
       accountId := 2
       type := "income"
       amount := 500
       transactionDate := none
       description := none
       reference := some ("TRF-" ++ toString (1 : Int))
       transferAccountId := some 1
       contactId := none
       createdAt := 0 + 1 } : Transaction) ∈
      (CreateTransaction emptyStore
        { accountId := 1, type := "transfer", amount := 500,
          transferAccountId := some 2 }).1.transactions ∧
    ({ id := 1 + 1
       accountId := 2
       type := "income"
       amount := 500
       transactionDate := none
       description := none
       reference := some ("TRF-" ++ toString (1 : Int))
       transferAccountId := some 1
       contactId := none
       createdAt := 0 + 1 } : Transaction) ∈
      (DeleteTransaction (CreateTransaction emptyStore
        { accountId := 1, type := "transfer", amount := 500,
          transferAccountId := some 2 }).1 1).1.transactions ∧
    ({ id := 1
       accountId := 1
       type := "expense"
       amount := 500
       transactionDate := none
       description := none
       reference := some ("TRF-" ++ toString (1 : Int))
       transferAccountId := some 2
       contactId := none
       createdAt := 0 } : Transaction) ∈
      (DeleteTransaction (CreateTransaction emptyStore
        { accountId := 1, type := "transfer", amount := 500,
          transferAccountId := some 2 }).1 (1 + 1)).1.transactions :=
  c4_transfer_pair emptyStore
    { accountId := 1, type := "transfer", amount := 500,
      transferAccountId := some 2 } 2 (by decide) rfl rfl rfl

theorem filter_not_eq_erase {α : Type} [DecidableEq α] (l : List α) (a : α)
    (p : α → Bool) (hl : l.Nodup) (ha : a ∈ l) (hpa : p a = true)
    (huniq : ∀ x ∈ l, p x = true → x = a) :
    l.filter (fun x => !(p x)) = l.erase a := by
  induction l with
  | nil => cases ha
  | cons b tl ih =>
    rcases List.mem_cons.1 ha with hb | hb
    · subst hb
      rw [List.erase_cons_head, List.filter_cons]
      simp only [hpa, Bool.not_true, Bool.false_eq_true, if_false]
      rw [List.filter_eq_self]
      intro x hx
      by_cases hp : p x = true
      · have hxa := huniq x (List.mem_cons_of_mem _ hx) hp
        subst hxa
        exact absurd hx (List.nodup_cons.1 hl).1
      · rw [Bool.not_eq_true] at hp
        simp [hp]
    · have hbne : b ≠ a := by
        intro hEq
        subst hEq
        exact (List.nodup_cons.1 hl).1 hb
      have hpb : p b = false := by
        by_cases hp : p b = true
        · exact absurd (huniq b (List.mem_cons_self _ _) hp) hbne
        · rwa [Bool.not_eq_true] at hp
      rw [List.filter_cons, List.erase_cons_tail (by simp [hbne])]
      simp only [hpb, Bool.not_false, if_true]
      rw [ih (List.nodup_cons.1 hl).2 hb
        (fun x hx hp => huniq x (List.mem_cons_of_mem _ hx) hp)]

theorem sumLinksForTxn_cons (td : TransactionDocument) (l : List TransactionDocument)
    (k : Int) :
    sumLinksForTxn (td :: l) k =
      (if td.transactionId = k then td.amount else 0) + sumLinksForTxn l k := by
  by_cases h : td.transactionId = k <;> simp [sumLinksForTxn, List.filter_cons, h]

theorem sumLinksForDoc_cons (td : TransactionDocument) (l : List TransactionDocument)
    (dt : String) (did : Int) :
    sumLinksForDoc (td :: l) dt did =
      (if td.documentType = dt ∧ td.documentId = did then td.amount else 0) +
        sumLinksForDoc l dt did := by
  by_cases h1 : td.documentType = dt <;> by_cases h2 : td.documentId = did <;>
    simp [sumLinksForDoc, List.filter_cons, h1, h2]

theorem sumLinksForTxn_erase (l : List TransactionDocument)
    (td : TransactionDocument) (k : Int) (h : td ∈ l) (hk : td.transactionId = k) :
    sumLinksForTxn (l.erase td) k = sumLinksForTxn l k - td.amount := by
  rw [sumLinksForTxn_perm (List.perm_cons_erase h) k, sumLinksForTxn_cons]
  rw [if_pos hk]
  rw [add_sub_cancel_left]

theorem sumLinksForDoc_erase (l : List TransactionDocument)
    (td : TransactionDocument) (h : td ∈ l) :
    sumLinksForDoc (l.erase td) td.documentType td.documentId =
      sumLinksForDoc l td.documentType td.documentId - td.amount := by
  rw [sumLinksForDoc_perm (List.perm_cons_erase h) td.documentType td.documentId,
    sumLinksForDoc_cons]
  rw [if_pos ⟨rfl, rfl⟩]
  rw [add_sub_cancel_left]

theorem DeleteTransactionLink_resp (s : Store) (txnID linkID : Int)
    (hne : s.transaction_documents.filter
      (fun td => td.id == linkID && td.transactionId == txnID) ≠ []) :
    (DeleteTransactionLink s txnID linkID).2 = .ok () := by
  unfold DeleteTransactionLink
  have hlen : ((s.transaction_documents.filter
      (fun td => td.id == linkID && td.transactionId == txnID)).length == 0) = false := by
    simp [List.length_eq_zero, hne]
  simp only [hlen, Bool.false_eq_true, if_false]

theorem DeleteTransactionLink_frame (s : Store) (txnID linkID : Int) :
    (DeleteTransactionLink s txnID linkID).1.transactions = s.transactions ∧
    (DeleteTransactionLink s txnID linkID).1.payouts = s.payouts ∧
    (DeleteTransactionLink s txnID linkID).1.bills.map Bill.core =
      s.bills.map Bill.core ∧
    (DeleteTransactionLink s txnID linkID).1.invoices.map Invoice.core =
      s.invoices.map Invoice.core ∧
    (DeleteTransactionLink s txnID linkID).1.nextTxnId = s.nextTxnId ∧
    (DeleteTransactionLink s txnID linkID).1.nextBillId = s.nextBillId ∧
    (DeleteTransactionLink s txnID linkID).1.nextInvoiceId = s.nextInvoiceId ∧
    (DeleteTransactionLink s txnID linkID).1.nextPayoutId = s.nextPayoutId ∧
    (DeleteTransactionLink s txnID linkID).1.nextLinkId = s.nextLinkId := by
  unfold DeleteTransactionLink
  by_cases hn : (s.transaction_documents.filter
      (fun td => td.id == linkID && td.transactionId == txnID)) = []
  · simp [hn]
  · have hlen : ((s.transaction_documents.filter
        (fun td => td.id == linkID && td.transactionId == txnID)).length == 0) = false := by
      simp [List.length_eq_zero, hn]
    simp only [hlen, Bool.false_eq_true, if_false]
    split
    · refine ⟨(updateDocumentStatus_frame _ _ _).1,
        (updateDocumentStatus_frame _ _ _).2.2.1, ?_, ?_, ?_, ?_, ?_, ?_, ?_⟩
      · exact updateDocumentStatus_bills_core _ _ _
      · exact updateDocumentStatus_invoices_core _ _ _
      · exact (updateDocumentStatus_frame _ _ _).2.2.2.1
      · exact (updateDocumentStatus_frame _ _ _).2.2.2.2.1
      · exact (updateDocumentStatus_frame _ _ _).2.2.2.2.2.1
      · exact (updateDocumentStatus_frame _ _ _).2.2.2.2.2.2.1
      · exact (updateDocumentStatus_frame _ _ _).2.2.2.2.2.2.2.1
    · exact ⟨rfl, rfl, rfl, rfl, rfl, rfl, rfl, rfl, rfl⟩

/-- C7: a successful unlink removes exactly the matched link row, leaves
the transaction rows and payout rows untouched and the bill and invoice
rows untouched except for their status fields, and both allocation sums
drop by exactly the amount of the removed link, so both derived
unallocated balances rise by that amount. -/
theorem c7_unlink_exact (s : Store) (txnID linkID : Int)
    (td : TransactionDocument) (hmem : td ∈ s.transaction_documents)
    (hid : td.id = linkID) (htx : td.transactionId = txnID)
    (hnd : (s.transaction_documents.map (fun x => x.id)).Nodup) :
    (DeleteTransactionLink s txnID linkID).2 = .ok () ∧
    (DeleteTransactionLink s txnID linkID).1.transaction_documents =
      s.transaction_documents.erase td ∧
    (DeleteTransactionLink s txnID linkID).1.transactions = s.transactions ∧
    (DeleteTransactionLink s txnID linkID).1.payouts = s.payouts ∧
    (DeleteTransactionLink s txnID linkID).1.bills.map Bill.core =
      s.bills.map Bill.core ∧
    (DeleteTransactionLink s txnID linkID).1.invoices.map Invoice.core =
      s.invoices.map Invoice.core ∧
    sumLinksForTxn (DeleteTransactionLink s txnID linkID).1.transaction_documents
        txnID =
      sumLinksForTxn s.transaction_documents txnID - td.amount ∧
    sumLinksForDoc (DeleteTransactionLink s txnID linkID).1.transaction_documents
        td.documentType td.documentId =
      sumLinksForDoc s.transaction_documents td.documentType td.documentId -
        td.amount ∧
    (∀ t ∈ s.transactions, t.id = txnID →
      (scanTransaction (DeleteTransactionLink s txnID linkID).1 t).unallocated =
        (scanTransaction s t).unallocated + td.amount) := by
  have huniq : ∀ x ∈ s.transaction_documents,
      (x.id == linkID && x.transactionId == txnID) = true → x = td := by
    intro x hx hmatch
    simp only [Bool.and_eq_true, beq_iff_eq] at hmatch
    exact List.inj_on_of_nodup_map hnd hx hmem (by rw [hmatch.1, hid])
  have hfil : s.transaction_documents.filter
      (fun x => !(x.id == linkID && x.transactionId == txnID)) =
      s.transaction_documents.erase td := by
    refine filter_not_eq_erase _ _ _ (List.Nodup.of_map _ hnd) hmem ?_ huniq
    simp [hid, htx]
  have hlinks : (DeleteTransactionLink s txnID linkID).1.transaction_documents =
      s.transaction_documents.erase td := by
    rw [DeleteTransactionLink_links]
    exact hfil
  have hne : s.transaction_documents.filter
      (fun x => x.id == linkID && x.transactionId == txnID) ≠ [] := by
    intro hnil
    have := List.filter_eq_nil_iff.1 hnil td hmem
    simp [hid, htx] at this
  have hframe := DeleteTransactionLink_frame s txnID linkID
  have hsumTxn : sumLinksForTxn
      (DeleteTransactionLink s txnID linkID).1.transaction_documents txnID =
      sumLinksForTxn s.transaction_documents txnID - td.amount := by
    rw [hlinks]
    exact sumLinksForTxn_erase _ _ _ hmem htx
  refine ⟨DeleteTransactionLink_resp s txnID linkID hne, hlinks, hframe.1,
    hframe.2.1, hframe.2.2.1, hframe.2.2.2.1, hsumTxn, ?_, ?_⟩
  · rw [hlinks]
    exact sumLinksForDoc_erase _ _ hmem
  · intro t _ htid
    simp only [scanTransaction]
    rw [htid, hsumTxn]
    ring

/-- C7 witness: unlinking the single 40-paise link of transaction 1
removes exactly that row and restores both unallocated balances. -/
theorem c7_witness :
    (DeleteTransactionLink
        (run [Op.createTxn { accountId := 1, type := "income", amount := 100 },
          Op.createBill { amount := 100 },
          Op.link 1 { documentType := "bill", documentId := 1, amount := 40 }])
        1 1).2 = .ok () ∧
    (DeleteTransactionLink
        (run [Op.createTxn { accountId := 1, type := "income", amount := 100 },
          Op.createBill { amount := 100 },
          Op.link 1 { documentType := "bill", documentId := 1, amount := 40 }])
        1 1).1.transaction_documents =
      (run [Op.createTxn { accountId := 1, type := "income", amount := 100 },
        Op.createBill { amount := 100 },
        Op.link 1 { documentType := "bill", documentId := 1, amount := 40 }]).transaction_documents.erase
        { id := 1
          transactionId := 1
          documentType := "bill"
          documentId := 1
          amount := 40
          createdAt := 2 } ∧
    sumLinksForTxn (DeleteTransactionLink
        (run [Op.createTxn { accountId := 1, type := "income", amount := 100 },
          Op.createBill { amount := 100 },
          Op.link 1 { documentType := "bill", documentId := 1, amount := 40 }])
        1 1).1.transaction_documents 1 =
      sumLinksForTxn
        (run [Op.createTxn { accountId := 1, type := "income", amount := 100 },
          Op.createBill { amount := 100 },
          Op.link 1 { documentType := "bill", documentId := 1, amount := 40 }]).transaction_documents
        1 - 40 := by
  have h := c7_unlink_exact
    (run [Op.createTxn { accountId := 1, type := "income", amount := 100 },
      Op.createBill { amount := 100 },
      Op.link 1 { documentType := "bill", documentId := 1, amount := 40 }]) 1 1
    { id := 1
      transactionId := 1
      documentType := "bill"
      documentId := 1
      amount := 40
      createdAt := 2 }
    (by decide) rfl rfl (by decide)
  exact ⟨h.1, h.2.1, h.2.2.2.2.2.2.1⟩

theorem txnInput_validate_amount_pos (t : TransactionInput)
    (h : t.Validate = "") : 0 < t.amount := by
  unfold TransactionInput.Validate at h
  by_cases h1 : t.accountId ≤ 0
  · rw [if_pos h1] at h
    exact absurd h (by decide)
  · rw [if_neg h1] at h
    by_cases h2 : t.amount ≤ 0
    · rw [if_pos h2] at h
      exact absurd h (by decide)
    · exact not_le.mp h2

theorem tdiInput_validate_amount_pos (td : TransactionDocumentInput)
    (h : td.Validate = "") : 0 < td.amount := by
  unfold TransactionDocumentInput.Validate at h
  by_cases h1 : (!(td.documentType == "bill" || td.documentType == "invoice")) = true
  · rw [if_pos h1] at h
    exact absurd h (by decide)
  · rw [if_neg h1] at h
    by_cases h2 : td.documentId ≤ 0
    · rw [if_pos h2] at h
      exact absurd h (by decide)
    · rw [if_neg h2] at h
      by_cases h3 : td.amount ≤ 0
      · rw [if_pos h3] at h
        exact absurd h (by decide)
      · exact not_le.mp h3

theorem billInput_validate_amount_nonneg (b : BillInput)
    (h : (b.Validate).1 = "") : 0 ≤ (b.Validate).2.amount := by
  unfold BillInput.Validate at h ⊢
  by_cases h1 : b.amount < 0
  · rw [if_pos h1] at h
    simp at h
  · rw [if_neg h1] at h ⊢
    by_cases h2 : (!(b.status == "" || b.status == "draft" || b.status == "partial" ||
        b.status == "received" || b.status == "paid" || b.status == "overdue" ||
        b.status == "cancelled")) = true
    · rw [if_pos h2] at h
      simp at h
    · rw [if_neg h2] at h ⊢
      by_cases h3 : (b.status == "") = true
      · rw [if_pos h3]
        exact not_lt.mp h1
      · rw [if_neg h3]
        exact not_lt.mp h1

theorem invoiceInput_validate_amount_nonneg (i : InvoiceInput)
    (h : (i.Validate).1 = "") : 0 ≤ (i.Validate).2.amount := by
  unfold InvoiceInput.Validate at h ⊢
  by_cases h1 : i.amount < 0
  · rw [if_pos h1] at h
    simp at h
  · rw [if_neg h1] at h ⊢
    by_cases h2 : (!(i.status == "" || i.status == "draft" || i.status == "partial" ||
        i.status == "sent" || i.status == "paid" || i.status == "received" ||
        i.status == "overdue" || i.status == "cancelled")) = true
    · rw [if_pos h2] at h
      simp at h
    · rw [if_neg h2] at h ⊢
      by_cases h3 : (i.status == "") = true
      · rw [if_pos h3]
        exact not_lt.mp h1
      · rw [if_neg h3]
        exact not_lt.mp h1

theorem docAmountLookup_found (s : Store) (dt : String) (did : Int) (A : Money)
    (h : docAmountLookup s dt did = .found A) :
    (dt = "bill" ∧ ∃ b, s.findBill did = some b ∧ b ∈ s.bills ∧
      b.id = did ∧ b.amount = A) ∨
    (dt = "invoice" ∧ ∃ i, s.findInvoice did = some i ∧ i ∈ s.invoices ∧
      i.id = did ∧ i.amount = A) ∨
    (dt = "payout" ∧ ∃ p, s.findPayout did = some p ∧ p ∈ s.payouts ∧
      p.id = did ∧ p.finalPayoutAmt = A) := by
  unfold docAmountLookup at h
  by_cases h1 : (dt == "bill") = true
  · rw [if_pos h1] at h
    left
    refine ⟨by simpa using h1, ?_⟩
    cases hb : s.findBill did with
    | none => rw [hb] at h; simp at h
    | some b =>
      rw [hb] at h
      injection h with hA
      refine ⟨b, rfl, List.mem_of_find?_eq_some (p := fun b : Bill => b.id == did)
        (by simpa [Store.findBill] using hb), ?_, hA⟩
      have := List.find?_some (p := fun b : Bill => b.id == did)
        (by simpa [Store.findBill] using hb)
      simpa using this
  · rw [if_neg h1] at h
    by_cases h2 : (dt == "invoice") = true
    · rw [if_pos h2] at h
      right; left
      refine ⟨by simpa using h2, ?_⟩
      cases hi : s.findInvoice did with
      | none => rw [hi] at h; simp at h
      | some i =>
        rw [hi] at h
        injection h with hA
        refine ⟨i, rfl, List.mem_of_find?_eq_some (p := fun i : Invoice => i.id == did)
          (by simpa [Store.findInvoice] using hi), ?_, hA⟩
        have := List.find?_some (p := fun i : Invoice => i.id == did)
          (by simpa [Store.findInvoice] using hi)
        simpa using this
    · rw [if_neg h2] at h
      by_cases h3 : (dt == "payout") = true
      · rw [if_pos h3] at h
        right; right
        refine ⟨by simpa using h3, ?_⟩
        cases hp : s.findPayout did with
        | none => rw [hp] at h; simp at h
        | some p =>
          rw [hp] at h
          injection h with hA
          refine ⟨p, rfl, List.mem_of_find?_eq_some (p := fun p : Payout => p.id == did)
            (by simpa [Store.findPayout] using hp), ?_, hA⟩
          have := List.find?_some (p := fun p : Payout => p.id == did)
            (by simpa [Store.findPayout] using hp)
          simpa using this
      · rw [if_neg h3] at h
        simp at h

theorem map_id_of_map_core_bills (l1 l2 : List Bill)
    (h : l1.map Bill.core = l2.map Bill.core) :
    l1.map (fun b => b.id) = l2.map (fun b => b.id) := by
  have h2 := congrArg (List.map (fun x :
    Int × Option Int × String × Option String × Option String × Money ×
      Option String × Option String × Nat => x.1)) h
  simpa [List.map_map, Function.comp, Bill.core] using h2

theorem map_id_of_map_core_invoices (l1 l2 : List Invoice)
    (h : l1.map Invoice.core = l2.map Invoice.core) :
    l1.map (fun i => i.id) = l2.map (fun i => i.id) := by
  have h2 := congrArg (List.map (fun x :
    Int × Option Int × String × Option String × Option String × Money ×
      Option String × Option String × Nat => x.1)) h
  simpa [List.map_map, Function.comp, Invoice.core] using h2

theorem updateDocumentStatus_inv (s : Store) (dt : String) (did : Int)
    (h : Inv s) : Inv (updateDocumentStatus s dt did) := by
  obtain ⟨hcap, ⟨hdb, hdi, hdp⟩, ⟨hbt, hbb, hbi, hbp, hbl⟩, hpos, ⟨hnt, hnb, hni, hnp, hnl⟩⟩ := h
  have hfr := updateDocumentStatus_frame s dt did
  have hbc := updateDocumentStatus_bills_core s dt did
  have hic := updateDocumentStatus_invoices_core s dt did
  refine ⟨?_, ⟨?_, ?_, ?_⟩, ⟨?_, ?_, ?_, ?_, ?_⟩, ?_, ⟨?_, ?_, ?_, ?_, ?_⟩⟩
  · intro t ht
    rw [hfr.2.1]
    rw [hfr.1] at ht
    exact hcap t ht
  · intro b2 hb2
    obtain ⟨b, hb, hbid, hbam⟩ := bill_core_mem s.bills _ hbc b2 hb2
    rw [hfr.2.1, hbid, hbam]
    exact hdb b hb
  · intro i2 hi2
    obtain ⟨i, hi, hiid, hiam⟩ := invoice_core_mem s.invoices _ hic i2 hi2
    rw [hfr.2.1, hiid, hiam]
    exact hdi i hi
  · intro p hp
    rw [hfr.2.1]
    rw [hfr.2.2.1] at hp
    exact hdp p hp
  · intro t ht
    rw [hfr.2.2.2.1]
    rw [hfr.1] at ht
    exact hbt t ht
  · intro b2 hb2
    obtain ⟨b, hb, hbid, _⟩ := bill_core_mem s.bills _ hbc b2 hb2
    rw [hfr.2.2.2.2.1, hbid]
    exact hbb b hb
  · intro i2 hi2
    obtain ⟨i, hi, hiid, _⟩ := invoice_core_mem s.invoices _ hic i2 hi2
    rw [hfr.2.2.2.2.2.1, hiid]
    exact hbi i hi
  · intro p hp
    rw [hfr.2.2.2.2.2.2.1]
    rw [hfr.2.2.1] at hp
    exact hbp p hp
  · intro td htd
    rw [hfr.2.1] at htd
    have hres := hbl td htd
    rw [hfr.2.2.2.2.2.2.2.1, hfr.2.2.2.1, hfr.2.2.2.2.1, hfr.2.2.2.2.2.1,
      hfr.2.2.2.2.2.2.1]
    exact hres
  · intro td htd
    rw [hfr.2.1] at htd
    exact hpos td htd
  · rw [hfr.1]
    exact hnt
  · rw [map_id_of_map_core_bills _ _ hbc]
    exact hnb
  · rw [map_id_of_map_core_invoices _ _ hic]
    exact hni
  · rw [hfr.2.2.1]
    exact hnp
  · rw [hfr.2.1]
    exact hnl

theorem nodup_snoc {β : Type} (l : List β) (a : β) (hl : l.Nodup) (ha : a ∉ l) :
    (l ++ [a]).Nodup := by
  rw [List.nodup_append]
  refine ⟨hl, List.nodup_singleton a, ?_⟩
  intro x hx hx2
  rw [List.mem_singleton] at hx2
  subst hx2
  exact ha hx

theorem not_mem_map_int {α : Type} (l : List α) (f : α → Int) (c : Int)
    (h : ∀ x ∈ l, f x < c) : c ∉ l.map f := by
  intro hm
  obtain ⟨x, hx, hfx⟩ := List.mem_map.1 hm
  have := h x hx
  omega

theorem Inv_extend_transactions (s s2 : Store)
    (hlk : s2.transaction_documents = s.transaction_documents)
    (hbills : s2.bills = s.bills) (hinvs : s2.invoices = s.invoices)
    (hpays : s2.payouts = s.payouts)
    (hcb : s2.nextBillId = s.nextBillId) (hci : s2.nextInvoiceId = s.nextInvoiceId)
    (hcp : s2.nextPayoutId = s.nextPayoutId) (hcl : s2.nextLinkId = s.nextLinkId)
    (hct : s.nextTxnId ≤ s2.nextTxnId)
    (hrows : ∀ t ∈ s2.transactions,
      (∃ t0 ∈ s.transactions, t.id = t0.id ∧ t.amount = t0.amount) ∨
      (0 ≤ t.amount ∧ s.nextTxnId ≤ t.id ∧ t.id < s2.nextTxnId))
    (hnodup : (s2.transactions.map (fun t => t.id)).Nodup)
    (h : Inv s) : Inv s2 := by
  obtain ⟨hcap, ⟨hdb, hdi, hdp⟩, ⟨hbt, hbb, hbi, hbp, hbl⟩, hpos,
    ⟨hnt, hnb, hni, hnp, hnl⟩⟩ := h
  refine ⟨?_, ⟨?_, ?_, ?_⟩, ⟨?_, ?_, ?_, ?_, ?_⟩, ?_, ⟨?_, ?_, ?_, ?_, ?_⟩⟩
  · intro t ht
    rw [hlk]
    rcases hrows t ht with ⟨t0, ht0, hid, ham⟩ | ⟨hnn, hlo, _⟩
    · rw [hid, ham]
      exact hcap t0 ht0
    · rw [sumLinksForTxn_eq_zero]
      · exact hnn
      · intro td htd
        have := (hbl td htd).2.1
        omega
  · intro b hb
    rw [hlk]
    rw [hbills] at hb
    exact hdb b hb
  · intro i hi
    rw [hlk]
    rw [hinvs] at hi
    exact hdi i hi
  · intro p hp
    rw [hlk]
    rw [hpays] at hp
    exact hdp p hp
  · intro t ht
    rcases hrows t ht with ⟨t0, ht0, hid, _⟩ | ⟨_, _, hhi⟩
    · rw [hid]
      have := hbt t0 ht0
      omega
    · exact hhi
  · intro b hb
    rw [hbills] at hb
    rw [hcb]
    exact hbb b hb
  · intro i hi
    rw [hinvs] at hi
    rw [hci]
    exact hbi i hi
  · intro p hp
    rw [hpays] at hp
    rw [hcp]
    exact hbp p hp
  · intro td htd
    rw [hlk] at htd
    have hb := hbl td htd
    rw [hcl, hcb, hci, hcp]
    exact ⟨hb.1, by omega, hb.2.2.1, hb.2.2.2.1, hb.2.2.2.2⟩
  · intro td htd
    rw [hlk] at htd
    exact hpos td htd
  · exact hnodup
  · rw [hbills]
    exact hnb
  · rw [hinvs]
    exact hni
  · rw [hpays]
    exact hnp
  · rw [hlk]
    exact hnl

theorem DeleteTransaction_inv (s : Store) (id : Int) (h : Inv s) :
    Inv (DeleteTransaction s id).1 := by
  unfold DeleteTransaction
  by_cases hn : (s.transactions.filter (fun t => t.id == id)) = []
  · simp only [hn, List.length_nil, beq_self_eq_true, if_true]
    exact h
  · have hlen : ((s.transactions.filter (fun t => t.id == id)).length == 0) = false := by
      simp [List.length_eq_zero, hn]
    simp only [hlen, Bool.false_eq_true, if_false]
    obtain ⟨hcap, ⟨hdb, hdi, hdp⟩, ⟨hbt, hbb, hbi, hbp, hbl⟩, hpos,
      ⟨hnt, hnb, hni, hnp, hnl⟩⟩ := h
    have hamts : ∀ td ∈ s.transaction_documents, 0 ≤ td.amount :=
      fun td ht => le_of_lt (hpos td ht)
    refine ⟨?_, ⟨?_, ?_, ?_⟩, ⟨?_, ?_, ?_, ?_, ?_⟩, ?_, ⟨?_, ?_, ?_, ?_, ?_⟩⟩
    · intro t ht
      exact le_trans (sumLinksForTxn_filter_le _ _ _ hamts)
        (hcap t (List.mem_of_mem_filter ht))
    · intro b hb
      exact le_trans (sumLinksForDoc_filter_le _ _ _ _ hamts) (hdb b hb)
    · intro i hi
      exact le_trans (sumLinksForDoc_filter_le _ _ _ _ hamts) (hdi i hi)
    · intro p hp
      exact le_trans (sumLinksForDoc_filter_le _ _ _ _ hamts) (hdp p hp)
    · intro t ht
      exact hbt t (List.mem_of_mem_filter ht)
    · exact hbb
    · exact hbi
    · exact hbp
    · intro td htd
      exact hbl td (List.mem_of_mem_filter htd)
    · intro td htd
      exact hpos td (List.mem_of_mem_filter htd)
    · exact List.Nodup.sublist ((List.filter_sublist _).map _) hnt
    · exact hnb
    · exact hni
    · exact hnp
    · exact List.Nodup.sublist ((List.filter_sublist _).map _) hnl

theorem DeleteBill_inv (s : Store) (id : Int) (h : Inv s) :
    Inv (DeleteBill s id).1 := by
  unfold DeleteBill
  by_cases hn : (s.bills.filter (fun b => b.id == id)) = []
  · simp only [hn, List.length_nil, beq_self_eq_true, if_true]
    exact h
  · have hlen : ((s.bills.filter (fun b => b.id == id)).length == 0) = false := by
      simp [List.length_eq_zero, hn]
    simp only [hlen, Bool.false_eq_true, if_false]
    obtain ⟨hcap, ⟨hdb, hdi, hdp⟩, ⟨hbt, hbb, hbi, hbp, hbl⟩, hpos,
      ⟨hnt, hnb, hni, hnp, hnl⟩⟩ := h
    refine ⟨hcap, ⟨?_, hdi, hdp⟩, ⟨hbt, ?_, hbi, hbp, hbl⟩, hpos,
      ⟨hnt, ?_, hni, hnp, hnl⟩⟩
    · intro b hb
      exact hdb b (List.mem_of_mem_filter hb)
    · intro b hb
      exact hbb b (List.mem_of_mem_filter hb)
    · exact List.Nodup.sublist ((List.filter_sublist _).map _) hnb

theorem DeleteInvoice_inv (s : Store) (id : Int) (h : Inv s) :
    Inv (DeleteInvoice s id).1 := by
  unfold DeleteInvoice
  by_cases hn : (s.invoices.filter (fun i => i.id == id)) = []
  · simp only [hn, List.length_nil, beq_self_eq_true, if_true]
    exact h
  · have hlen : ((s.invoices.filter (fun i => i.id == id)).length == 0) = false := by
      simp [List.length_eq_zero, hn]
    simp only [hlen, Bool.false_eq_true, if_false]
    obtain ⟨hcap, ⟨hdb, hdi, hdp⟩, ⟨hbt, hbb, hbi, hbp, hbl⟩, hpos,
      ⟨hnt, hnb, hni, hnp, hnl⟩⟩ := h
    refine ⟨hcap, ⟨hdb, ?_, hdp⟩, ⟨hbt, hbb, ?_, hbp, hbl⟩, hpos,
      ⟨hnt, hnb, ?_, hnp, hnl⟩⟩
    · intro i hi
      exact hdi i (List.mem_of_mem_filter hi)
    · intro i hi
      exact hbi i (List.mem_of_mem_filter hi)
    · exact List.Nodup.sublist ((List.filter_sublist _).map _) hni

theorem DeletePayout_inv (s : Store) (id : Int) (h : Inv s) :
    Inv (DeletePayout s id).1 := by
  unfold DeletePayout
  by_cases hn : (s.payouts.filter (fun p => p.id == id)) = []
  · simp only [hn, List.length_nil, beq_self_eq_true, if_true]
    exact h
  · have hlen : ((s.payouts.filter (fun p => p.id == id)).length == 0) = false := by
      simp [List.length_eq_zero, hn]
    simp only [hlen, Bool.false_eq_true, if_false]
    obtain ⟨hcap, ⟨hdb, hdi, hdp⟩, ⟨hbt, hbb, hbi, hbp, hbl⟩, hpos,
      ⟨hnt, hnb, hni, hnp, hnl⟩⟩ := h
    refine ⟨hcap, ⟨hdb, hdi, ?_⟩, ⟨hbt, hbb, hbi, ?_, hbl⟩, hpos,
      ⟨hnt, hnb, hni, ?_, hnl⟩⟩
    · intro p hp
      exact hdp p (List.mem_of_mem_filter hp)
    · intro p hp
      exact hbp p (List.mem_of_mem_filter hp)
    · exact List.Nodup.sublist ((List.filter_sublist _).map _) hnp

theorem CreateBill_inv (s : Store) (input : BillInput) (h : Inv s) :
    Inv (CreateBill s input).1 := by
  unfold CreateBill
  by_cases hv : ((input.Validate).1 != "") = true
  · rw [if_pos hv]
    exact h
  · rw [if_neg hv]
    have hv2 : (input.Validate).1 = "" := by simpa using hv
    have hamt := billInput_validate_amount_nonneg input hv2
    obtain ⟨hcap, ⟨hdb, hdi, hdp⟩, ⟨hbt, hbb, hbi, hbp, hbl⟩, hpos,
      ⟨hnt, hnb, hni, hnp, hnl⟩⟩ := h
    refine ⟨hcap, ⟨?_, hdi, hdp⟩, ⟨hbt, ?_, hbi, hbp, ?_⟩, hpos,
      ⟨hnt, ?_, hni, hnp, hnl⟩⟩
    · intro b hb
      rcases List.mem_append.1 hb with hb | hb
      · exact hdb b hb
      · rw [List.mem_singleton] at hb
        subst hb
        rw [sumLinksForDoc_eq_zero]
        · exact hamt
        · intro td htd hc
          have := (hbl td htd).2.2.1 hc.1
          have h2 := hc.2
          dsimp only at h2 ⊢
          omega
    · intro b hb
      rcases List.mem_append.1 hb with hb | hb
      · have := hbb b hb
        dsimp only
        omega
      · rw [List.mem_singleton] at hb
        subst hb
        dsimp only
        omega
    · intro td htd
      have hb := hbl td htd
      exact ⟨hb.1, hb.2.1, fun hc => by have := hb.2.2.1 hc; dsimp only; omega,
        hb.2.2.2.1, hb.2.2.2.2⟩
    · rw [List.map_append]
      refine nodup_snoc _ _ hnb ?_
      exact not_mem_map_int _ _ _ hbb

theorem CreateInvoice_inv (s : Store) (input : InvoiceInput) (h : Inv s) :
    Inv (CreateInvoice s input).1 := by
  unfold CreateInvoice
  by_cases hv : ((input.Validate).1 != "") = true
  · rw [if_pos hv]
    exact h
  · rw [if_neg hv]
    have hv2 : (input.Validate).1 = "" := by simpa using hv
    have hamt := invoiceInput_validate_amount_nonneg input hv2
    obtain ⟨hcap, ⟨hdb, hdi, hdp⟩, ⟨hbt, hbb, hbi, hbp, hbl⟩, hpos,
      ⟨hnt, hnb, hni, hnp, hnl⟩⟩ := h
    refine ⟨hcap, ⟨hdb, ?_, hdp⟩, ⟨hbt, hbb, ?_, hbp, ?_⟩, hpos,
      ⟨hnt, hnb, ?_, hnp, hnl⟩⟩
    · intro i hi
      rcases List.mem_append.1 hi with hi | hi
      · exact hdi i hi
      · rw [List.mem_singleton] at hi
        subst hi
        rw [sumLinksForDoc_eq_zero]
        · exact hamt
        · intro td htd hc
          have := (hbl td htd).2.2.2.1 hc.1
          have h2 := hc.2
          dsimp only at h2 ⊢
          omega
    · intro i hi
      rcases List.mem_append.1 hi with hi | hi
      · have := hbi i hi
        dsimp only
        omega
      · rw [List.mem_singleton] at hi
        subst hi
        dsimp only
        omega
    · intro td htd
      have hb := hbl td htd
      exact ⟨hb.1, hb.2.1, hb.2.2.1, fun hc => by have := hb.2.2.2.1 hc; dsimp only; omega,
        hb.2.2.2.2⟩
    · rw [List.map_append]
      refine nodup_snoc _ _ hni ?_
      exact not_mem_map_int _ _ _ hbi

theorem CreatePayout_inv (s : Store) (input : PayoutInput)
    (hnn : 0 ≤ input.finalPayoutAmt) (h : Inv s) :
    Inv (CreatePayout s input).1 := by
  unfold CreatePayout
  by_cases hv : (input.Validate != "") = true
  · rw [if_pos hv]
    exact h
  · rw [if_neg hv]
    by_cases hck : ((!(platformCheckOk input.platform)) = true)
    · rw [if_pos hck]
      exact h
    · rw [if_neg hck]
      obtain ⟨hcap, ⟨hdb, hdi, hdp⟩, ⟨hbt, hbb, hbi, hbp, hbl⟩, hpos,
        ⟨hnt, hnb, hni, hnp, hnl⟩⟩ := h
      refine ⟨hcap, ⟨hdb, hdi, ?_⟩, ⟨hbt, hbb, hbi, ?_, ?_⟩, hpos,
        ⟨hnt, hnb, hni, ?_, hnl⟩⟩
      · intro p hp
        rcases List.mem_append.1 hp with hp | hp
        · exact hdp p hp
        · rw [List.mem_singleton] at hp
          subst hp
          rw [sumLinksForDoc_eq_zero]
          · exact hnn
          · intro td htd hc
            have := (hbl td htd).2.2.2.2 hc.1
            have h2 := hc.2
            dsimp only at h2 ⊢
            omega
      · intro p hp
        rcases List.mem_append.1 hp with hp | hp
        · have := hbp p hp
          dsimp only
          omega
        · rw [List.mem_singleton] at hp
          subst hp
          dsimp only
          omega
      · intro td htd
        have hb := hbl td htd
        exact ⟨hb.1, hb.2.1, hb.2.2.1, hb.2.2.2.1,
          fun hc => by have := hb.2.2.2.2 hc; dsimp only; omega⟩
      · rw [List.map_append]
        refine nodup_snoc _ _ hnp ?_
        exact not_mem_map_int _ _ _ hbp

theorem refPatch_id (aRef : String) (t : Transaction) :
    (if t.reference == some "TRF-0" then
      { t with reference := some aRef } else t).id = t.id := by
  split <;> rfl

theorem refPatch_amount (aRef : String) (t : Transaction) :
    (if t.reference == some "TRF-0" then
      { t with reference := some aRef } else t).amount = t.amount := by
  split <;> rfl

theorem CreateTransaction_inv (s : Store) (input : TransactionInput) (h : Inv s) :
    Inv (CreateTransaction s input).1 := by
  unfold CreateTransaction
  by_cases hv : (input.Validate != "") = true
  · rw [if_pos hv]
    exact h
  · rw [if_neg hv]
    have hv2 : input.Validate = "" := by simpa using hv
    have hamt := txnInput_validate_amount_pos input hv2
    have hbt := h.2.2.1.1
    by_cases htr : (input.type == "transfer") = true
    · rw [if_pos htr]
      cases href : input.reference with
      | none =>
        dsimp only
        refine Inv_extend_transactions s _ rfl rfl rfl rfl rfl rfl rfl rfl
          (by dsimp only; omega) ?_ ?_ h
        · intro t ht
          dsimp only at ht
          obtain ⟨t0, ht0, hteq⟩ := List.mem_map.1 ht
          subst hteq
          rcases List.mem_append.1 ht0 with h0 | h0
          · left
            exact ⟨t0, h0, refPatch_id _ _, refPatch_amount _ _⟩
          · right
            rcases List.mem_cons.1 h0 with h0 | h0
            · subst h0
              rw [refPatch_id, refPatch_amount]
              dsimp only
              exact ⟨le_of_lt hamt, le_refl _, by omega⟩
            · rw [List.mem_singleton] at h0
              subst h0
              rw [refPatch_id, refPatch_amount]
              dsimp only
              exact ⟨le_of_lt hamt, by omega, by omega⟩
        · dsimp only
          rw [List.map_map,
            show ((fun t : Transaction => t.id) ∘ fun t =>
                if t.reference == some "TRF-0" then
                  { t with reference := some ("TRF-" ++ toString s.nextTxnId) }
                else t) = (fun t : Transaction => t.id) from
              funext (fun t => refPatch_id _ t)]
          rw [List.map_append, List.nodup_append]
          refine ⟨h.2.2.2.2.1, ?_, ?_⟩
          · show ([s.nextTxnId, s.nextTxnId + 1] : List Int).Nodup
            refine List.nodup_cons.2 ⟨?_, List.nodup_singleton _⟩
            rw [List.mem_singleton]
            omega
          · intro a ha ha2
            have hlt : a < s.nextTxnId := by
              obtain ⟨x, hx, hax⟩ := List.mem_map.1 ha
              rw [← hax]
              exact hbt x hx
            have ha3 : a ∈ ([s.nextTxnId, s.nextTxnId + 1] : List Int) := ha2
            rcases List.mem_cons.1 ha3 with h0 | h0
            · omega
            · rw [List.mem_singleton] at h0
              omega
      | some r =>
        dsimp only
        refine Inv_extend_transactions s _ rfl rfl rfl rfl rfl rfl rfl rfl
          (by dsimp only; omega) ?_ ?_ h
        · intro t ht
          dsimp only at ht
          rcases List.mem_append.1 ht with h0 | h0
          · left
            exact ⟨t, h0, rfl, rfl⟩
          · right
            rcases List.mem_cons.1 h0 with h0 | h0
            · subst h0
              dsimp only
              exact ⟨le_of_lt hamt, le_refl _, by omega⟩
            · rw [List.mem_singleton] at h0
              subst h0
              dsimp only
              exact ⟨le_of_lt hamt, by omega, by omega⟩
        · dsimp only
          rw [List.map_append, List.nodup_append]
          refine ⟨h.2.2.2.2.1, ?_, ?_⟩
          · show ([s.nextTxnId, s.nextTxnId + 1] : List Int).Nodup
            refine List.nodup_cons.2 ⟨?_, List.nodup_singleton _⟩
            rw [List.mem_singleton]
            omega
          · intro a ha ha2
            have hlt : a < s.nextTxnId := by
              obtain ⟨x, hx, hax⟩ := List.mem_map.1 ha
              rw [← hax]
              exact hbt x hx
            have ha3 : a ∈ ([s.nextTxnId, s.nextTxnId + 1] : List Int) := ha2
            rcases List.mem_cons.1 ha3 with h0 | h0
            · omega
            · rw [List.mem_singleton] at h0
              omega
    · rw [if_neg htr]
      dsimp only
      refine Inv_extend_transactions s _ rfl rfl rfl rfl rfl rfl rfl rfl
        (by dsimp only; omega) ?_ ?_ h
      · intro t ht
        dsimp only at ht
        rcases List.mem_append.1 ht with h0 | h0
        · left
          exact ⟨t, h0, rfl, rfl⟩
        · rw [List.mem_singleton] at h0
          subst h0
          right
          dsimp only
          exact ⟨le_of_lt hamt, le_refl _, by omega⟩
      · dsimp only
        rw [List.map_append]
        refine nodup_snoc _ _ h.2.2.2.2.1 ?_
        exact not_mem_map_int _ _ _ hbt

theorem CreateTransactionLink_cases (s : Store) (txnID : Int)
    (input : TransactionDocumentInput) :
    (CreateTransactionLink s txnID input).1 = s ∨
    (input.Validate = "" ∧ ∃ t A, s.findTxn txnID = some t ∧
      docAmountLookup s input.documentType input.documentId = .found A ∧
      input.amount ≤ t.amount - sumLinksForTxn s.transaction_documents txnID ∧
      input.amount ≤ A - sumLinksForDoc s.transaction_documents
        input.documentType input.documentId ∧
      (CreateTransactionLink s txnID input).1 =
        updateDocumentStatus
          { s with
              transaction_documents := s.transaction_documents ++
                [{ id := s.nextLinkId
                   transactionId := txnID
                   documentType := input.documentType
                   documentId := input.documentId
                   amount := input.amount
                   createdAt := s.clock }]
              nextLinkId := s.nextLinkId + 1
              clock := s.clock + 1 }
          input.documentType input.documentId) := by
  unfold CreateTransactionLink
  by_cases hv : (input.Validate != "") = true
  · rw [if_pos hv]
    left
    rfl
  · rw [if_neg hv]
    cases hft : s.findTxn txnID with
    | none => left; rfl
    | some t =>
      dsimp only
      by_cases hc1 : t.amount - sumLinksForTxn s.transaction_documents txnID <
          input.amount
      · rw [if_pos hc1]
        left
        rfl
      · rw [if_neg hc1]
        cases hda : docAmountLookup s input.documentType input.documentId with
        | invalidType => left; rfl
        | notFound => left; rfl
        | found A =>
          dsimp only
          by_cases hc2 : A - sumLinksForDoc s.transaction_documents
              input.documentType input.documentId < input.amount
          · rw [if_pos hc2]
            left
            rfl
          · rw [if_neg hc2]
            right
            exact ⟨by simpa using hv, t, A, rfl, rfl, not_lt.mp hc1,
              not_lt.mp hc2, rfl⟩

theorem CreateTransactionLink_inv (s : Store) (txnID : Int)
    (input : TransactionDocumentInput) (h : Inv s) :
    Inv (CreateTransactionLink s txnID input).1 := by
  rcases CreateTransactionLink_cases s txnID input with heq |
    ⟨hv, t, A, hft, hda, hc1, hc2, heq⟩
  · rw [heq]
    exact h
  · rw [heq]
    apply updateDocumentStatus_inv
    obtain ⟨hcap, ⟨hdb, hdi, hdp⟩, ⟨hbt2, hbb, hbi, hbp, hbl⟩, hpos,
      ⟨hnt, hnb, hni, hnp, hnl⟩⟩ := h
    have htmem : t ∈ s.transactions :=
      List.mem_of_find?_eq_some (p := fun t : Transaction => t.id == txnID)
        (by simpa [Store.findTxn] using hft)
    have htid : t.id = txnID := by
      have := List.find?_some (p := fun t : Transaction => t.id == txnID)
        (by simpa [Store.findTxn] using hft)
      simpa using this
    have hdd := docAmountLookup_found s input.documentType input.documentId A hda
    have hamtpos := tdiInput_validate_amount_pos input hv
    refine ⟨?_, ⟨?_, ?_, ?_⟩, ⟨?_, ?_, ?_, ?_, ?_⟩, ?_, ⟨?_, ?_, ?_, ?_, ?_⟩⟩
    · intro t2 ht2
      dsimp only at ht2 ⊢
      rw [sumLinksForTxn_append]
      dsimp only
      by_cases hcond : txnID = t2.id
      · rw [if_pos hcond]
        have ht2eq : t2 = t :=
          List.inj_on_of_nodup_map hnt ht2 htmem (by rw [htid, hcond])
        subst ht2eq
        have hle := le_sub_iff_add_le.mp hc1
        rw [htid]
        linarith
      · rw [if_neg hcond, add_zero]
        exact hcap t2 ht2
    · intro b hb
      dsimp only at hb ⊢
      rw [sumLinksForDoc_append]
      dsimp only
      by_cases hcond : input.documentType = "bill" ∧ input.documentId = b.id
      · rw [if_pos hcond]
        rcases hdd with ⟨hdt, b0, _, hb0, hb0id, hb0A⟩ | ⟨hdt, _⟩ | ⟨hdt, _⟩
        · have hbeq : b = b0 :=
            List.inj_on_of_nodup_map hnb hb hb0 (by rw [hb0id, ← hcond.2])
          have hle := le_sub_iff_add_le.mp hc2
          rw [hcond.1, hcond.2] at hle
          rw [hbeq] at hle ⊢
          rw [hb0A]
          linarith
        · rw [hcond.1] at hdt
          simp at hdt
        · rw [hcond.1] at hdt
          simp at hdt
      · rw [if_neg hcond, add_zero]
        exact hdb b hb
    · intro i hi
      dsimp only at hi ⊢
      rw [sumLinksForDoc_append]
      dsimp only
      by_cases hcond : input.documentType = "invoice" ∧ input.documentId = i.id
      · rw [if_pos hcond]
        rcases hdd with ⟨hdt, _⟩ | ⟨hdt, i0, _, hi0, hi0id, hi0A⟩ | ⟨hdt, _⟩
        · rw [hcond.1] at hdt
          simp at hdt
        · have hieq : i = i0 :=
            List.inj_on_of_nodup_map hni hi hi0 (by rw [hi0id, ← hcond.2])
          have hle := le_sub_iff_add_le.mp hc2
          rw [hcond.1, hcond.2] at hle
          rw [hieq] at hle ⊢
          rw [hi0A]
          linarith
        · rw [hcond.1] at hdt
          simp at hdt
      · rw [if_neg hcond, add_zero]
        exact hdi i hi
    · intro p hp
      dsimp only at hp ⊢
      rw [sumLinksForDoc_append]
      dsimp only
      by_cases hcond : input.documentType = "payout" ∧ input.documentId = p.id
      · rw [if_pos hcond]
        rcases hdd with ⟨hdt, _⟩ | ⟨hdt, _⟩ | ⟨hdt, p0, _, hp0, hp0id, hp0A⟩
        · rw [hcond.1] at hdt
          simp at hdt
        · rw [hcond.1] at hdt
          simp at hdt
        · have hpeq : p = p0 :=
            List.inj_on_of_nodup_map hnp hp hp0 (by rw [hp0id, ← hcond.2])
          have hle := le_sub_iff_add_le.mp hc2
          rw [hcond.1, hcond.2] at hle
          rw [hpeq] at hle ⊢
          rw [hp0A]
          linarith
      · rw [if_neg hcond, add_zero]
        exact hdp p hp
    · intro t2 ht2
      dsimp only at ht2 ⊢
      exact hbt2 t2 ht2
    · intro b hb
      dsimp only at hb ⊢
      exact hbb b hb
    · intro i hi
      dsimp only at hi ⊢
      exact hbi i hi
    · intro p hp
      dsimp only at hp ⊢
      exact hbp p hp
    · intro td htd
      dsimp only at htd ⊢
      rcases List.mem_append.1 htd with h0 | h0
      · have hb := hbl td h0
        exact ⟨by omega, hb.2.1, hb.2.2.1, hb.2.2.2.1, hb.2.2.2.2⟩
      · rw [List.mem_singleton] at h0
        subst h0
        dsimp only
        refine ⟨by omega, by rw [← htid]; exact hbt2 t htmem, ?_, ?_, ?_⟩
        · intro hdt
          rcases hdd with ⟨_, b0, _, hb0, hb0id, _⟩ | ⟨hdt2, _⟩ | ⟨hdt2, _⟩
          · rw [← hb0id]
            exact hbb b0 hb0
          · rw [hdt] at hdt2
            simp at hdt2
          · rw [hdt] at hdt2
            simp at hdt2
        · intro hdt
          rcases hdd with ⟨hdt2, _⟩ | ⟨_, i0, _, hi0, hi0id, _⟩ | ⟨hdt2, _⟩
          · rw [hdt] at hdt2
            simp at hdt2
          · rw [← hi0id]
            exact hbi i0 hi0
          · rw [hdt] at hdt2
            simp at hdt2
        · intro hdt
          rcases hdd with ⟨hdt2, _⟩ | ⟨hdt2, _⟩ | ⟨_, p0, _, hp0, hp0id, _⟩
          · rw [hdt] at hdt2
            simp at hdt2
          · rw [hdt] at hdt2
            simp at hdt2
          · rw [← hp0id]
            exact hbp p0 hp0
    · intro td htd
      dsimp only at htd
      rcases List.mem_append.1 htd with h0 | h0
      · exact hpos td h0
      · rw [List.mem_singleton] at h0
        subst h0
        exact hamtpos
    · exact hnt
    · exact hnb
    · exact hni
    · exact hnp
    · dsimp only
      rw [List.map_append]
      refine nodup_snoc _ _ hnl ?_
      exact not_mem_map_int _ _ _ (fun td htd => (hbl td htd).1)

theorem DeleteTransactionLink_inv (s : Store) (txnID linkID : Int) (h : Inv s) :
    Inv (DeleteTransactionLink s txnID linkID).1 := by
  obtain ⟨hcap, ⟨hdb, hdi, hdp⟩, ⟨hbt, hbb, hbi, hbp, hbl⟩, hpos,
    ⟨hnt, hnb, hni, hnp, hnl⟩⟩ := h
  have hfr := DeleteTransactionLink_frame s txnID linkID
  have hlk := DeleteTransactionLink_links s txnID linkID
  have hamts : ∀ td ∈ s.transaction_documents, 0 ≤ td.amount :=
    fun td ht => le_of_lt (hpos td ht)
  refine ⟨?_, ⟨?_, ?_, ?_⟩, ⟨?_, ?_, ?_, ?_, ?_⟩, ?_, ⟨?_, ?_, ?_, ?_, ?_⟩⟩
  · intro t ht
    rw [hfr.1] at ht
    rw [hlk]
    exact le_trans (sumLinksForTxn_filter_le _ _ _ hamts) (hcap t ht)
  · intro b2 hb2
    obtain ⟨b, hb, hbid, hbam⟩ := bill_core_mem s.bills _ hfr.2.2.1 b2 hb2
    rw [hlk, hbid, hbam]
    exact le_trans (sumLinksForDoc_filter_le _ _ _ _ hamts) (hdb b hb)
  · intro i2 hi2
    obtain ⟨i, hi, hiid, hiam⟩ := invoice_core_mem s.invoices _ hfr.2.2.2.1 i2 hi2
    rw [hlk, hiid, hiam]
    exact le_trans (sumLinksForDoc_filter_le _ _ _ _ hamts) (hdi i hi)
  · intro p hp
    rw [hfr.2.1] at hp
    rw [hlk]
    exact le_trans (sumLinksForDoc_filter_le _ _ _ _ hamts) (hdp p hp)
  · intro t ht
    rw [hfr.1] at ht
    rw [hfr.2.2.2.2.1]
    exact hbt t ht
  · intro b2 hb2
    obtain ⟨b, hb, hbid, _⟩ := bill_core_mem s.bills _ hfr.2.2.1 b2 hb2
    rw [hfr.2.2.2.2.2.1, hbid]
    exact hbb b hb
  · intro i2 hi2
    obtain ⟨i, hi, hiid, _⟩ := invoice_core_mem s.invoices _ hfr.2.2.2.1 i2 hi2
    rw [hfr.2.2.2.2.2.2.1, hiid]
    exact hbi i hi
  · intro p hp
    rw [hfr.2.1] at hp
    rw [hfr.2.2.2.2.2.2.2.1]
    exact hbp p hp
  · intro td htd
    rw [hlk] at htd
    have hmem := List.mem_of_mem_filter htd
    have hb := hbl td hmem
    rw [hfr.2.2.2.2.2.2.2.2, hfr.2.2.2.2.1, hfr.2.2.2.2.2.1,
      hfr.2.2.2.2.2.2.1, hfr.2.2.2.2.2.2.2.1]
    exact hb
  · intro td htd
    rw [hlk] at htd
    exact hpos td (List.mem_of_mem_filter htd)
  · rw [hfr.1]
    exact hnt
  · rw [map_id_of_map_core_bills _ _ hfr.2.2.1]
    exact hnb
  · rw [map_id_of_map_core_invoices _ _ hfr.2.2.2.1]
    exact hni
  · rw [hfr.2.1]
    exact hnp
  · rw [hlk]
    exact List.Nodup.sublist ((List.filter_sublist _).map _) hnl

theorem step_inv (s : Store) (op : Op) (h1 : op.updateFree = true)
    (h2 : op.payoutAmtNonneg = true) (h : Inv s) : Inv (step s op) := by
  cases op with
  | createTxn i => exact CreateTransaction_inv s i h
  | updateTxn id i => simp [Op.updateFree] at h1
  | deleteTxn id => exact DeleteTransaction_inv s id h
  | createBill i => exact CreateBill_inv s i h
  | updateBill id i => simp [Op.updateFree] at h1
  | deleteBill id => exact DeleteBill_inv s id h
  | createInvoice i => exact CreateInvoice_inv s i h
  | updateInvoice id i => simp [Op.updateFree] at h1
  | deleteInvoice id => exact DeleteInvoice_inv s id h
  | createPayout i =>
    exact CreatePayout_inv s i (by simpa [Op.payoutAmtNonneg] using h2) h
  | updatePayout id i => simp [Op.updateFree] at h1
  | deletePayout id => exact DeletePayout_inv s id h
  | link txnID i => exact CreateTransactionLink_inv s txnID i h
  | unlink txnID linkID => exact DeleteTransactionLink_inv s txnID linkID h

theorem run_inv_aux (ops : List Op) : ∀ s, Inv s →
    (∀ op ∈ ops, op.updateFree = true ∧ op.payoutAmtNonneg = true) →
    Inv (ops.foldl step s) := by
  induction ops with
  | nil =>
    intro s h _
    exact h
  | cons op tl ih =>
    intro s h hops
    simp only [List.foldl_cons]
    refine ih _ (step_inv s op (hops op (List.mem_cons_self _ _)).1
      (hops op (List.mem_cons_self _ _)).2 h) ?_
    intro o ho
    exact hops o (List.mem_cons_of_mem _ ho)

theorem Inv_emptyStore : Inv emptyStore := by
  refine ⟨?_, ⟨?_, ?_, ?_⟩, ⟨?_, ?_, ?_, ?_, ?_⟩, ?_, ⟨?_, ?_, ?_, ?_, ?_⟩⟩ <;>
    first
      | (intro x hx; cases hx)
      | exact List.nodup_nil

/-- C1 counterexample: after creating an income transaction of 100, fully
allocating it to a bill of 100 and then updating the transaction amount
down to 50, the allocation sum for the transaction exceeds its amount, so
the capacity invariant does not hold in every reachable state and
UpdateTransaction does not preserve it. -/
theorem c1_counterexample : ¬ TxnCapInv (run overAllocOps) := by decide

/-- C1 (amended): both capacity invariants hold in every state reachable
through create, delete, link and unlink operations alone, provided every
created payout has a non-negative final_payout_amt; the full-record update
operations re-check nothing and can break the invariants. -/
theorem c1_capacity_without_updates (ops : List Op)
    (h : ∀ op ∈ ops, op.updateFree = true ∧ op.payoutAmtNonneg = true) :
    TxnCapInv (run ops) ∧ DocCapInv (run ops) := by
  have hinv := run_inv_aux ops emptyStore Inv_emptyStore h
  exact ⟨hinv.1, hinv.2.1⟩

/-- C1 witness: a create/link/unlink/delete sequence keeps both capacity
invariants. -/
theorem c1_witness :
    (∀ op ∈ ([Op.createTxn { accountId := 1, type := "income", amount := 100 },
        Op.createBill { amount := 50 },
        Op.link 1 { documentType := "bill", documentId := 1, amount := 50 },
        Op.unlink 1 1,
        Op.deleteTxn 1] : List Op),
      op.updateFree = true ∧ op.payoutAmtNonneg = true) ∧
    TxnCapInv (run [Op.createTxn { accountId := 1, type := "income", amount := 100 },
      Op.createBill { amount := 50 },
      Op.link 1 { documentType := "bill", documentId := 1, amount := 50 },
      Op.unlink 1 1,
      Op.deleteTxn 1]) ∧
    DocCapInv (run [Op.createTxn { accountId := 1, type := "income", amount := 100 },
      Op.createBill { amount := 50 },
      Op.link 1 { documentType := "bill", documentId := 1, amount := 50 },
      Op.unlink 1 1,
      Op.deleteTxn 1]) :=
  ⟨by decide,
   c1_capacity_without_updates
     [Op.createTxn { accountId := 1, type := "income", amount := 100 },
      Op.createBill { amount := 50 },
      Op.link 1 { documentType := "bill", documentId := 1, amount := 50 },
      Op.unlink 1 1,
      Op.deleteTxn 1] (by decide)⟩

end Accounting
